import Mathlib

/-
Verification of the floor-decor agent core: the deterministic suitability
rules engine (`rules_engine.py`), the use-case registry
(`use_case_checks.py`) and the bounded tool-calling chat loop
(`chat_service.py`), shallowly embedded in Lean.

Modelling conventions:
- Python strings are Lean `String`s; only ASCII behaviour of
  `.strip()`, `.lower()`, `.split()` and the regexes is modelled
  (all inputs of interest are ASCII).
- Python `float` arithmetic is modelled with exact rationals `ℚ`.
- Python dicts are association lists with in-place update semantics.
-/

namespace FndAgent

/-! ### Python string primitives -/

/-- ASCII whitespace recognised by Python's `str.strip` / `str.split` /
regex `\s`: space, tab, newline, carriage return, vertical tab, form feed. -/
def isSpaceChar (c : Char) : Bool :=
  c = ' ' || c = '\t' || c = '\n' || c = '\r' || c = '\x0b' || c = '\x0c'

/-- ASCII digit test, regex `\d`. -/
def isDigitChar (c : Char) : Bool :=
  '0' ≤ c && c ≤ '9'

/-- Python `str.strip()` on a character list. -/
def pyStripL (l : List Char) : List Char :=
  ((l.dropWhile isSpaceChar).reverse.dropWhile isSpaceChar).reverse

/-- Python `str.strip()`. -/
def pyStrip (s : String) : String :=
  ⟨pyStripL s.data⟩

/-- Helper for Python `str.split()`: returns the word prefix still being
built (scanning right to left) and the completed words. -/
def wordsAux : List Char → List Char × List (List Char)
  | [] => ([], [])
  | c :: rest =>
    let (cur, ws) := wordsAux rest
    if isSpaceChar c then ([], if cur = [] then ws else cur :: ws)
    else (c :: cur, ws)

/-- Python `str.split()` (split on whitespace runs, dropping empties). -/
def pySplitL (l : List Char) : List (List Char) :=
  let (cur, ws) := wordsAux l
  if cur = [] then ws else cur :: ws

/-- Join character-list words with single spaces: `" ".join(words)`. -/
def joinWords : List (List Char) → List Char
  | [] => []
  | [w] => w
  | w :: ws => w ++ ' ' :: joinWords ws

/-- Model of `" ".join(s.split())`: collapse whitespace runs to single spaces and trim. -/
def collapseWs (s : String) : String :=
  ⟨joinWords (pySplitL s.data)⟩

/-- Python `str.lower()` (ASCII). -/
def strLower (s : String) : String :=
  ⟨s.data.map Char.toLower⟩

/-- Python substring test `needle in hay`. -/
def strContains (hay needle : String) : Bool :=
  decide (needle.data <:+: hay.data)

/-- Python `a or b` for strings (empty string is falsy). -/
def pyOr (a b : String) : String :=
  if a = "" then b else a

/-! ### `_extract_float` (rules_engine.py lines 34-63)

The three regex searches are modelled as leftmost-match scanners.  For
these particular patterns the character classes of adjacent quantified
pieces are disjoint, so greedy maximal-munch matching coincides with
Python `re` backtracking semantics. -/

/-- Digit-string value. -/
def digitsVal (l : List Char) : Nat :=
  l.foldl (fun acc c => acc * 10 + (c.toNat - '0'.toNat)) 0

/-- Split a maximal nonempty digit run off the front. -/
def takeDigits (l : List Char) : Option (List Char × List Char) :=
  match l.takeWhile isDigitChar with
  | [] => none
  | ds => some (ds, l.dropWhile isDigitChar)

/-- Split a maximal (possibly empty) whitespace run off the front. -/
def takeWs (l : List Char) : List Char × List Char :=
  (l.takeWhile isSpaceChar, l.dropWhile isSpaceChar)

/-- Match `(-?\d+)` at the current position: returns the signed integer
value and the rest. -/
def matchSignedInt (l : List Char) : Option (Int × List Char) :=
  match l with
  | '-' :: rest =>
    match takeDigits rest with
    | some (ds, rest') => some (-(digitsVal ds : Int), rest')
    | none => none
  | _ =>
    match takeDigits l with
    | some (ds, rest') => some ((digitsVal ds : Int), rest')
    | none => none

/-- Attempt the mixed-fraction pattern `(-?\d+)\s+(\d+)\s*/\s*(\d+)` at the
current position.  Returns `(whole, numerator, denominator)`. -/
def matchMixedAt (l : List Char) : Option (Int × Nat × Nat) := do
  let (w, r1) ← matchSignedInt l
  let (ws1, r2) := takeWs r1
  if ws1.isEmpty then none else
  let (nds, r3) ← takeDigits r2
  let (_, r4) := takeWs r3
  match r4 with
  | '/' :: r5 =>
    let (_, r6) := takeWs r5
    let (dds, _) ← takeDigits r6
    some (w, digitsVal nds, digitsVal dds)
  | _ => none

/-- Model of `re.search` of the mixed-fraction pattern: first position (left to
right) where it matches. -/
def searchMixed : List Char → Option (Int × Nat × Nat)
  | [] => none
  | c :: rest =>
    match matchMixedAt (c :: rest) with
    | some m => some m
    | none => searchMixed rest

/-- Attempt the simple-fraction pattern `(-?\d+)\s*/\s*(\d+)` at the
current position.  Returns `(numerator, denominator)`. -/
def matchFracAt (l : List Char) : Option (Int × Nat) := do
  let (n, r1) ← matchSignedInt l
  let (_, r2) := takeWs r1
  match r2 with
  | '/' :: r3 =>
    let (_, r4) := takeWs r3
    let (dds, _) ← takeDigits r4
    some (n, digitsVal dds)
  | _ => none

/-- Model of `re.search` of the simple-fraction pattern. -/
def searchFrac : List Char → Option (Int × Nat)
  | [] => none
  | c :: rest =>
    match matchFracAt (c :: rest) with
    | some m => some m
    | none => searchFrac rest

/-- Attempt the decimal pattern `-?\d+(?:\.\d+)?` at the current position. -/
def matchNumAt (l : List Char) : Option ℚ := do
  let (neg, l') :=
    match l with
    | '-' :: rest => (true, rest)
    | _ => (false, l)
  let (ids, r1) ← takeDigits l'
  let intPart : ℚ := (digitsVal ids : ℚ)
  let value : ℚ :=
    match r1 with
    | '.' :: r2 =>
      match takeDigits r2 with
      | some (fds, _) => intPart + (digitsVal fds : ℚ) / (10 ^ fds.length : ℚ)
      | none => intPart
    | _ => intPart
  some (if neg then -value else value)

/-- Model of `re.search` of the decimal pattern. -/
def searchNum : List Char → Option ℚ
  | [] => none
  | c :: rest =>
    match matchNumAt (c :: rest) with
    | some m => some m
    | none => searchNum rest

/-- Value of a matched mixed fraction, as computed by the source:
`whole + (num/den if whole >= 0 else -num/den)`. -/
def mixedVal (w : Int) (n d : Nat) : ℚ :=
  if (0 : Int) ≤ w then (w : ℚ) + (n : ℚ) / (d : ℚ)
  else (w : ℚ) - (n : ℚ) / (d : ℚ)

/-- Model of `raw.replace(",", " ")` on the character list. -/
def commaToSpace (s : String) : List Char :=
  s.data.map (fun c => if c = ',' then ' ' else c)

/-- Stage 1 of `_extract_float`: the mixed-fraction rule (a zero
denominator is no match). -/
def mixedStage (normalized : List Char) : Option ℚ :=
  match searchMixed normalized with
  | some (w, n, d) => if d ≠ 0 then some (mixedVal w n d) else none
  | none => none

/-- Stage 2 of `_extract_float`: the simple-fraction rule (a zero
denominator is no match). -/
def fracStage (normalized : List Char) : Option ℚ :=
  match searchFrac normalized with
  | some (n, d) => if d ≠ 0 then some ((n : ℚ) / (d : ℚ)) else none
  | none => none

/-- Model of `_extract_float` (rules_engine.py lines 34-63). -/
def extractFloat (raw : String) : Option ℚ :=
  if raw = "" then none
  else
    let normalized := commaToSpace raw
    match mixedStage normalized with
    | some v => some v
    | none =>
      match fracStage normalized with
      | some v => some v
      | none => searchNum normalized

/-- Model of `_contains_any` (rules_engine.py lines 66-70), with the keyword tuple
as a list. -/
def containsAny (raw : String) (keywords : List String) : Bool :=
  if raw = "" then false
  else keywords.any (fun k => strContains (strLower raw) k)

/-! ### Data model (models.py) -/

/-- Model of `Product` (models.py).  Only the fields the core logic reads are
modelled with content; the claims never inspect the remaining optional
strings, which are carried for shape fidelity. -/
structure Product where
  sku : String
  name : Option String := none
  url : Option String := none
  category_slug : Option String := none
  price_per_sqft : Option String := none
  price_per_box : Option String := none
  size_primary : Option String := none
  color : Option String := none
  finish : Option String := none
  deriving DecidableEq, Repr

/-- Model of `ProductSpec` (models.py): one scraped attribute record. -/
structure ProductSpec where
  spec_key : String
  spec_value : String
  deriving DecidableEq, Repr

/-- Model of `ProductDocument` (models.py). -/
structure ProductDocument where
  doc_label : String
  doc_url : String
  deriving DecidableEq, Repr

/-- Model of `ProductRecommendedItem` (models.py). -/
structure ProductRecommendedItem where
  rec_name : String
  rec_url : String
  rec_sku : Option String := none
  deriving DecidableEq, Repr

/-- Model of `ProductDetail` (models.py). -/
structure ProductDetail where
  product : Product
  specs : List ProductSpec
  documents : List ProductDocument := []
  recommended_items : List ProductRecommendedItem := []
  deriving DecidableEq, Repr

/-- Model of `UseCase` (models.py): the 19 registered use cases. -/
inductive UseCase where
  | bathroom_floor
  | shower_floor
  | shower_wall
  | fireplace_surround
  | radiant_heat
  | outdoor_patio
  | pool_deck
  | kitchen_backsplash
  | commercial_heavy_floor
  | laundry_room_floor
  | basement_floor
  | steam_shower_enclosure
  | outdoor_kitchen_counter
  | garage_workshop_floor
  | driveway_paver
  | stair_tread
  | commercial_kitchen_floor
  | pool_interior
  | exterior_wall_cladding
  deriving DecidableEq, Repr

/-- A Python dict with string keys and values, as an association list in
insertion order. -/
def SpecDict := List (String × String)
deriving DecidableEq, Repr

/-- Model of `d[k] = v`: update in place if the key exists, else append. -/
def dictUpd (m : SpecDict) (k v : String) : SpecDict :=
  match m with
  | [] => [(k, v)]
  | (k', v') :: rest =>
    if k' = k then (k', v) :: rest else (k', v') :: dictUpd rest k v

/-- Model of `d.get(k, default)`. -/
def dictGetD (m : SpecDict) (k dflt : String) : String :=
  match m with
  | [] => dflt
  | (k', v') :: rest => if k' = k then v' else dictGetD rest k dflt

/-- Model of `d.get(k)` as an option. -/
def dictGet (m : SpecDict) (k : String) : Option String :=
  match m with
  | [] => none
  | (k', v') :: rest => if k' = k then some v' else dictGet rest k

/-- Model of `UsageCheckResponse` (models.py): the usage verdict. -/
structure UsageCheckResponse where
  sku : String
  use_case : UseCase
  ok : Option Bool
  confidence : ℚ
  reason : String
  supporting_specs : SpecDict
  deriving DecidableEq, Repr

/-! ### `build_spec_map` (rules_engine.py lines 9-31) -/

/-- Key normalisation of `build_spec_map`: `spec_key.strip().lower()`. -/
def normKey (s : String) : String :=
  strLower (pyStrip s)

/-- One step of `build_spec_map`: normalise one record into the map. -/
def specStep (m : SpecDict) (spec : ProductSpec) : SpecDict :=
  let key := normKey spec.spec_key
  if key = "" then m
  else
    let val := collapseWs spec.spec_value
    match dictGet m key with
    | none => dictUpd m key val
    | some existing => if val.length < existing.length then dictUpd m key val else m

/-- Model of `build_spec_map` (rules_engine.py lines 9-31). -/
def build_spec_map (detail : ProductDetail) : SpecDict :=
  detail.specs.foldl specStep []

/-- Model of `_mk_response` (rules_engine.py lines 73-88). -/
def mk_response (detail : ProductDetail) (use_case : UseCase) (ok : Option Bool)
    (confidence : ℚ) (reason : String) (supporting_specs : SpecDict) :
    UsageCheckResponse :=
  ⟨detail.product.sku, use_case, ok, confidence, reason, supporting_specs⟩

/-- Add `supporting[k] = v` exactly when `v` is truthy, the pattern
`if v: supporting[k] = v` used by every evaluator. -/
def addSpec (d : SpecDict) (k v : String) : SpecDict :=
  if v ≠ "" then dictUpd d k v else d

/-! ### The rule evaluators (rules_engine.py lines 91-1396)

Each Python early `return` becomes the then-branch of an if-expression;
code that several branches fall through to is bound as a local
continuation.  `reason` strings are reproduced up to punctuation (quote
marks are omitted); no claim inspects them. -/

/-- Model of `check_bathroom_floor` (rules_engine.py lines 91-142). -/
def check_bathroom_floor (detail : ProductDetail) : UsageCheckResponse :=
  let m := build_spec_map detail
  let bf := dictGetD m "bathroom floor use" ""
  let s0 := addSpec [] "bathroom floor use" bf
  if bf ≠ "" ∧ strContains (strLower bf) "not suitable" then
    mk_response detail .bathroom_floor (some false) 0.95
      "Spec Bathroom Floor Use says Not Suitable for Bathroom Floor." s0
  else if bf ≠ "" ∧ (strContains (strLower bf) "suitable" ∨ strContains (strLower bf) "yes") then
    mk_response detail .bathroom_floor (some true) 0.9
      "Spec Bathroom Floor Use indicates bathroom floor use is allowed." s0
  else
    let water := dictGetD m "water resistance" ""
    let placement := dictGetD m "placement location" ""
    let s1 := addSpec (addSpec s0 "water resistance" water) "placement location" placement
    if water ≠ "" ∨ placement ≠ "" then
      mk_response detail .bathroom_floor none 0.6
        "No explicit Bathroom Floor Use spec. Product is water-resistant / has placement info, but bathroom floor suitability is not guaranteed." s1
    else
      mk_response detail .bathroom_floor none 0.0
        "No relevant specs found for bathroom floor usage." s1

/-- Model of `check_shower_floor` (rules_engine.py lines 145-183). -/
def check_shower_floor (detail : ProductDetail) : UsageCheckResponse :=
  let m := build_spec_map detail
  let ss := dictGetD m "shower surface" ""
  let s0 := addSpec [] "shower surface" ss
  if ss ≠ "" ∧ (strContains (strLower ss) "not suitable for shower floors" ∨
      strContains (strLower ss) "not suitable for shower floor") then
    mk_response detail .shower_floor (some false) 0.95
      "Spec Shower Surface explicitly says it is not suitable for shower floors." s0
  else if ss ≠ "" ∧ (strContains (strLower ss) "suitable for shower floors" ∨
      strContains (strLower ss) "suitable for shower floor") then
    mk_response detail .shower_floor (some true) 0.9
      "Spec Shower Surface indicates it is suitable for shower floors." s0
  else
    let dcof := pyOr (dictGetD m "dcof value" "") (dictGetD m "dcof" "")
    let s1 := addSpec s0 "dcof" dcof
    mk_response detail .shower_floor none 0.4
      "No explicit shower floor spec. Check DCOF and manufacturer guidelines before using on a shower floor." s1

/-- Model of `check_shower_wall` (rules_engine.py lines 186-220). -/
def check_shower_wall (detail : ProductDetail) : UsageCheckResponse :=
  let m := build_spec_map detail
  let ss := dictGetD m "shower surface" ""
  let s0 := addSpec [] "shower surface" ss
  if ss ≠ "" ∧ strContains (strLower ss) "suitable for shower walls" then
    mk_response detail .shower_wall (some true) 0.9
      "Spec Shower Surface indicates it is suitable for shower walls." s0
  else if ss ≠ "" ∧ strContains (strLower ss) "not suitable for shower walls" then
    mk_response detail .shower_wall (some false) 0.95
      "Spec Shower Surface explicitly says it is not suitable for shower walls." s0
  else
    mk_response detail .shower_wall none 0.4
      "No explicit shower wall spec found. Likely okay for many tiles rated for wet walls, but verify with full specs." s0

/-- Model of `check_fireplace_surround` (rules_engine.py lines 223-257). -/
def check_fireplace_surround (detail : ProductDetail) : UsageCheckResponse :=
  let m := build_spec_map detail
  let fp := dictGetD m "fireplace surround use" ""
  let s0 := addSpec [] "fireplace surround use" fp
  if fp ≠ "" ∧ (strContains (strLower fp) "yes" ∨ strContains (strLower fp) "suitable") then
    mk_response detail .fireplace_surround (some true) 0.9
      "Spec Fireplace Surround Use indicates it is suitable around fireplaces." s0
  else if fp ≠ "" ∧ (strContains (strLower fp) "no" ∨ strContains (strLower fp) "not suitable") then
    mk_response detail .fireplace_surround (some false) 0.95
      "Spec Fireplace Surround Use indicates it is not suitable around fireplaces." s0
  else
    mk_response detail .fireplace_surround none 0.3
      "No explicit fireplace surround spec found. Check heat tolerance and manufacturer documentation." s0

/-- Model of `check_radiant_heat` (rules_engine.py lines 260-296). -/
def check_radiant_heat (detail : ProductDetail) : UsageCheckResponse :=
  let m := build_spec_map detail
  let rh := pyOr (dictGetD m "radiant heat compatible" "") (dictGetD m "radiant heat compatibility" "")
  let s0 := addSpec [] "radiant heat compatible" rh
  if rh ≠ "" ∧ (strContains (strLower rh) "yes" ∨ strContains (strLower rh) "compatible") then
    mk_response detail .radiant_heat (some true) 0.9
      "Spec indicates compatibility with radiant heat." s0
  else if rh ≠ "" ∧ (strContains (strLower rh) "no" ∨ strContains (strLower rh) "not compatible") then
    mk_response detail .radiant_heat (some false) 0.95
      "Spec indicates this product is not compatible with radiant heat." s0
  else
    mk_response detail .radiant_heat none 0.3
      "No explicit radiant heat spec found. Check system and manufacturer guidelines." s0

/-- Model of `check_outdoor_patio` (rules_engine.py lines 299-380). -/
def check_outdoor_patio (detail : ProductDetail) : UsageCheckResponse :=
  let m := build_spec_map detail
  let placement := dictGetD m "placement location" ""
  let frost := dictGetD m "frost resistance" ""
  let water_absorption := dictGetD m "water absorption" ""
  let water_resistance := dictGetD m "water resistance" ""
  let s0 := addSpec [] "placement location" placement
  if placement ≠ "" ∧ strContains (strLower placement) "indoor only" then
    mk_response detail .outdoor_patio (some false) 0.9
      "Placement spec restricts this product to indoor installations." s0
  else
    let s1 := addSpec s0 "frost resistance" frost
    if frost ≠ "" ∧ containsAny frost ["no", "not resistant"] then
      mk_response detail .outdoor_patio (some false) 0.9
        "Spec Frost Resistance indicates the material is not frost resistant." s1
    else
      let s2 := addSpec s1 "water absorption" water_absorption
      let abs_low : Bool :=
        match extractFloat water_absorption with
        | some v => if v ≤ 0.5 then true else false
        | none => false
      let freeze_ready : Bool :=
        (placement != "" && strContains (strLower placement) "outdoor")
        || (frost != "" && containsAny frost ["yes", "resistant", "rated"])
        || abs_low
      if freeze_ready then
        mk_response detail .outdoor_patio (some true) 0.85
          "Specs indicate outdoor placement and freeze-thaw readiness, suitable for patios." s2
      else
        let s3 := addSpec s2 "water resistance" water_resistance
        if water_resistance ≠ "" ∧
            containsAny water_resistance ["not water", "not resistant", "not recommended", "no "] then
          mk_response detail .outdoor_patio (some false) 0.8
            "Water-resistance spec warns against exposure, so an uncovered patio is risky." s3
        else
          mk_response detail .outdoor_patio none 0.4
            "Outdoor placement or freeze-thaw data not found. Verify frost resistance before patio use." s3

/-- Model of `check_pool_deck` (rules_engine.py lines 383-444). -/
def check_pool_deck (detail : ProductDetail) : UsageCheckResponse :=
  let m := build_spec_map detail
  let placement := dictGetD m "placement location" ""
  let dcof := pyOr (dictGetD m "dcof value" "") (dictGetD m "dcof" "")
  let water_resistance := dictGetD m "water resistance" ""
  let s0 := addSpec [] "placement location" placement
  if placement ≠ "" ∧ ¬ strContains (strLower placement) "outdoor" then
    mk_response detail .pool_deck (some false) 0.85
      "Spec does not list outdoor placement, so a pool deck installation is not recommended." s0
  else
    let s1 := addSpec s0 "water resistance" water_resistance
    if water_resistance ≠ "" ∧ containsAny water_resistance ["not water", "not resistant"] then
      mk_response detail .pool_deck (some false) 0.95
        "Spec indicates the product is not water resistant; standing water from a pool deck would damage it." s1
    else
      let s2 := addSpec s1 "dcof" dcof
      let fallback := mk_response detail .pool_deck none 0.4
        "Missing slip or water-resistance data. Confirm outdoor slip rating before installing near pools." s2
      if dcof ≠ "" then
        match extractFloat dcof with
        | some dcof_value =>
          if dcof_value ≥ 0.42 then
            mk_response detail .pool_deck (some true) 0.9
              "DCOF rating meets wet-area slip guidance (at least 0.42) and product is rated for outdoor use." s2
          else
            mk_response detail .pool_deck (some false) 0.85
              "DCOF rating below 0.42 indicates the surface may be too slippery for a pool deck." s2
        | none => fallback
      else fallback

/-- Model of `check_kitchen_backsplash` (rules_engine.py lines 447-508). -/
def check_kitchen_backsplash (detail : ProductDetail) : UsageCheckResponse :=
  let m := build_spec_map detail
  let install := dictGetD m "installation options" ""
  let placement := dictGetD m "placement location" ""
  let water_resistance := dictGetD m "water resistance" ""
  let s0 := addSpec [] "installation options" install
  if install ≠ "" ∧ strContains (strLower install) "floor only" then
    mk_response detail .kitchen_backsplash (some false) 0.95
      "Installation options list floor-only coverage, so mounting on a backsplash is not supported." s0
  else
    let s1 := addSpec s0 "placement location" placement
    if install ≠ "" ∧ strContains (strLower install) "wall" then
      if placement ≠ "" ∧ strContains (strLower placement) "outdoor" then
        mk_response detail .kitchen_backsplash (some true) 0.75
          "Spec lists wall installation; ensure finish suits kitchen cleaning needs." s1
      else
        mk_response detail .kitchen_backsplash (some true) 0.85
          "Installation options explicitly allow wall applications, so a backsplash is supported." s1
    else
      let s2 := addSpec s1 "water resistance" water_resistance
      if water_resistance ≠ "" ∧ containsAny water_resistance ["not water", "not resistant"] then
        mk_response detail .kitchen_backsplash (some false) 0.8
          "Spec warns the finish is not water resistant - repeated cleaning would damage it." s2
      else
        mk_response detail .kitchen_backsplash none 0.4
          "Wall/backsplash install data not found. Verify with manufacturer literature before proceeding." s2

/-- Model of `check_commercial_heavy_floor` (rules_engine.py lines 511-569). -/
def check_commercial_heavy_floor (detail : ProductDetail) : UsageCheckResponse :=
  let m := build_spec_map detail
  let pei := dictGetD m "pei rating" ""
  let floor_rating := dictGetD m "floor suitability rating" ""
  let afterPei := fun (s : SpecDict) =>
    let s1 := addSpec s "floor suitability rating" floor_rating
    if floor_rating ≠ "" ∧ containsAny floor_rating ["heavy commercial", "commercial"] then
      mk_response detail .commercial_heavy_floor (some true) 0.85
        "Floor suitability spec explicitly calls out commercial traffic." s1
    else if floor_rating ≠ "" ∧ containsAny floor_rating ["residential only", "light", "wall only"] then
      mk_response detail .commercial_heavy_floor (some false) 0.9
        "Floor suitability spec limits usage to residential/light areas." s1
    else
      mk_response detail .commercial_heavy_floor none 0.4
        "No PEI or floor rating data found. Request traffic rating before commercial installation." s1
  let s0 := addSpec [] "pei rating" pei
  if pei ≠ "" then
    match extractFloat pei with
    | some pei_value =>
      if pei_value ≥ 4 then
        mk_response detail .commercial_heavy_floor (some true) 0.9
          "PEI rating of 4 or 5 supports heavy commercial foot traffic." s0
      else if pei_value ≤ 2 then
        mk_response detail .commercial_heavy_floor (some false) 0.95
          "PEI rating below 3 is intended for light traffic, not heavy commercial areas." s0
      else afterPei s0
    | none => afterPei s0
  else afterPei s0

/-- Model of `check_laundry_room_floor` (rules_engine.py lines 572-632). -/
def check_laundry_room_floor (detail : ProductDetail) : UsageCheckResponse :=
  let m := build_spec_map detail
  let water := dictGetD m "water resistance" ""
  let bathroom := dictGetD m "bathroom floor use" ""
  let placement := dictGetD m "placement location" ""
  let s0 := addSpec [] "water resistance" water
  if water ≠ "" ∧ containsAny water ["not water", "not resistant"] then
    mk_response detail .laundry_room_floor (some false) 0.9
      "Spec says the product is not water resistant - laundry leaks would damage it." s0
  else
    let s1 := addSpec s0 "bathroom floor use" bathroom
    if bathroom ≠ "" ∧ containsAny bathroom ["not suitable"] then
      mk_response detail .laundry_room_floor (some false) 0.9
        "Bathroom floor spec is negative, so another wet room like a laundry is unsafe." s1
    else if bathroom ≠ "" ∧ containsAny bathroom ["suitable", "yes"] then
      mk_response detail .laundry_room_floor (some true) 0.85
        "Bathroom floor suitability implies it can handle occasional laundry moisture." s1
    else
      let s2 := addSpec s1 "placement location" placement
      if placement ≠ "" ∧ strContains (strLower placement) "indoor" then
        mk_response detail .laundry_room_floor (some true) 0.6
          "Indoor placement is allowed, but confirm water resistance for laundry spill tolerance." s2
      else
        mk_response detail .laundry_room_floor none 0.3
          "Could not find wet-area data. Seal or choose a known water-resistant material for laundry rooms." s2

/-- Model of `check_basement_floor` (rules_engine.py lines 635-696). -/
def check_basement_floor (detail : ProductDetail) : UsageCheckResponse :=
  let m := build_spec_map detail
  let placement := dictGetD m "placement location" ""
  let water := dictGetD m "water resistance" ""
  let absorption := dictGetD m "water absorption" ""
  let s0 := addSpec [] "placement location" placement
  if placement ≠ "" ∧ ¬ strContains (strLower placement) "indoor" then
    mk_response detail .basement_floor (some false) 0.8
      "Placement spec does not mention indoor/below-grade installs." s0
  else
    let s1 := addSpec s0 "water resistance" water
    if water ≠ "" ∧ containsAny water ["not water", "not resistant"] then
      mk_response detail .basement_floor (some false) 0.9
        "Spec says the material lacks water resistance, which is risky for basements." s1
    else if water ≠ "" ∧ containsAny water ["waterproof", "water resistant", "water-resistent"] then
      mk_response detail .basement_floor (some true) 0.8
        "Water-resistance spec supports below-grade moisture swings typical in basements." s1
    else
      let s2 := addSpec s1 "water absorption" absorption
      let lowAbs : Bool :=
        match extractFloat absorption with
        | some v => if v ≤ 0.5 then true else false
        | none => false
      if absorption ≠ "" ∧ lowAbs then
        mk_response detail .basement_floor (some true) 0.75
          "Low water absorption (under 0.5 percent) indicates the tile can handle basement humidity." s2
      else
        mk_response detail .basement_floor none 0.35
          "Need water-resistance or absorption data to judge basement suitability." s2

/-- Model of `check_steam_shower_enclosure` (rules_engine.py lines 699-783). -/
def check_steam_shower_enclosure (detail : ProductDetail) : UsageCheckResponse :=
  let m := build_spec_map detail
  let shower_surface := dictGetD m "shower surface" ""
  let water_absorption := dictGetD m "water absorption" ""
  let water_resistance := dictGetD m "water resistance" ""
  let placement := dictGetD m "placement location" ""
  let s0 := addSpec [] "shower surface" shower_surface
  if shower_surface ≠ "" ∧ strContains (strLower shower_surface) "not suitable for shower walls" then
    mk_response detail .steam_shower_enclosure (some false) 0.95
      "Spec explicitly says the product is not suitable for shower walls." s0
  else
    let wall_ready : Bool :=
      shower_surface != "" &&
        (strContains (strLower shower_surface) "suitable for shower walls"
          || strContains (strLower shower_surface) "wet walls")
    let s1 := addSpec s0 "water absorption" water_absorption
    let afterAbs := fun (dense : Bool) =>
      let s2 := addSpec s1 "water resistance" water_resistance
      if water_resistance ≠ "" ∧
          containsAny water_resistance ["not water", "not resistant", "not recommended"] then
        mk_response detail .steam_shower_enclosure (some false) 0.9
          "Spec indicates the material is not water resistant enough for a steam enclosure." s2
      else
        let s3 := addSpec s2 "placement location" placement
        if wall_ready ∧ dense ∧ water_resistance ≠ "" then
          mk_response detail .steam_shower_enclosure (some true) 0.85
            "Low water absorption and shower-wall suitability indicate it can handle steam enclosures." s3
        else if wall_ready ∨ dense then
          mk_response detail .steam_shower_enclosure none 0.5
            "Missing either dense body or explicit shower-wall approval needed for a steam enclosure." s3
        else
          mk_response detail .steam_shower_enclosure none 0.2
            "Could not confirm shower-wall suitability or water absorption for steam use." s3
    if water_absorption ≠ "" then
      match extractFloat water_absorption with
      | some abs_val =>
        if abs_val ≤ 0.5 then afterAbs true
        else if abs_val > 3 then
          mk_response detail .steam_shower_enclosure (some false) 0.9
            "Water absorption is high, which risks steam-room saturation." s1
        else afterAbs false
      | none => afterAbs false
    else afterAbs false

/-- Model of `check_outdoor_kitchen_counter` (rules_engine.py lines 786-869). -/
def check_outdoor_kitchen_counter (detail : ProductDetail) : UsageCheckResponse :=
  let m := build_spec_map detail
  let placement := dictGetD m "placement location" ""
  let fireplace := dictGetD m "fireplace surround use" ""
  let water_resistance := dictGetD m "water resistance" ""
  let material := dictGetD m "material" ""
  let s0 := addSpec [] "placement location" placement
  if placement ≠ "" ∧ strContains (strLower placement) "indoor only" then
    mk_response detail .outdoor_kitchen_counter (some false) 0.9
      "Placement spec restricts installation to indoor areas only." s0
  else
    let outdoor_ready : Bool :=
      placement != "" &&
        (strContains (strLower placement) "outdoor" || strContains (strLower placement) "exterior")
    let s1 := addSpec s0 "fireplace surround use" fireplace
    if fireplace ≠ "" ∧ (strContains (strLower fireplace) "no" ∨
        strContains (strLower fireplace) "not suitable") then
      mk_response detail .outdoor_kitchen_counter (some false) 0.95
        "Spec indicates it is not safe around fireplace heat, so grills/outdoor kitchens are risky." s1
    else
      let fire_safe : Bool :=
        fireplace != "" &&
          (strContains (strLower fireplace) "yes" || strContains (strLower fireplace) "suitable")
      let s2 := addSpec s1 "water resistance" water_resistance
      if water_resistance ≠ "" ∧
          containsAny water_resistance ["not water", "not resistant", "not recommended"] then
        mk_response detail .outdoor_kitchen_counter (some false) 0.9
          "Spec calls out poor water resistance, which is unsuitable for uncovered outdoor counters." s2
      else
        let s3 := addSpec s2 "material" material
        if outdoor_ready ∧ fire_safe then
          mk_response detail .outdoor_kitchen_counter (some true) 0.85
            "Outdoor placement and fireplace/heat rating suggest it can handle an outdoor kitchen." s3
        else if outdoor_ready ∨ fire_safe then
          mk_response detail .outdoor_kitchen_counter none 0.45
            "Need both outdoor weathering and heat resistance confirmed for an outdoor counter." s3
        else
          mk_response detail .outdoor_kitchen_counter none 0.25
            "Missing data about outdoor rating and high-heat tolerance for outdoor kitchens." s3

/-- Model of `check_garage_workshop_floor` (rules_engine.py lines 872-971). -/
def check_garage_workshop_floor (detail : ProductDetail) : UsageCheckResponse :=
  let m := build_spec_map detail
  let placement := dictGetD m "placement location" ""
  let installation := dictGetD m "installation options" ""
  let water_resistance := dictGetD m "water resistance" ""
  let pei := dictGetD m "pei rating" ""
  let floor_rating := dictGetD m "floor suitability rating" ""
  let dcof := pyOr (dictGetD m "dcof value" "") (dictGetD m "dcof" "")
  let s0 := addSpec [] "placement location" placement
  if placement ≠ "" ∧ strContains (strLower placement) "wall only" then
    mk_response detail .garage_workshop_floor (some false) 0.95
      "Placement spec limits this product to walls only, not floors." s0
  else
    let s1 := addSpec s0 "installation options" installation
    if installation ≠ "" ∧ strContains (strLower installation) "wall only" then
      mk_response detail .garage_workshop_floor (some false) 0.95
        "Installation options do not include flooring applications." s1
    else
      let s2 := addSpec s1 "water resistance" water_resistance
      if water_resistance ≠ "" ∧
          containsAny water_resistance ["not water", "not resistant", "not recommended"] then
        mk_response detail .garage_workshop_floor (some false) 0.9
          "Spec warns that liquids will damage the surface - garage spills are common." s2
      else
        let s3 := addSpec s2 "dcof" dcof
        let dcofLow : Bool :=
          match extractFloat dcof with
          | some v => if v < 0.42 then true else false
          | none => false
        if dcof ≠ "" ∧ dcofLow then
          mk_response detail .garage_workshop_floor (some false) 0.85
            "DCOF is below wet-area guidance, making garage slip hazards likely." s3
        else
          let s4 := addSpec s3 "floor suitability rating" floor_rating
          let heavy_rating : Bool :=
            floor_rating != "" && containsAny floor_rating ["heavy", "commercial", "garage"]
          let afterPei := fun (pei_ready : Bool) (s : SpecDict) =>
            let dcof_ok : Bool :=
              (dcof == "") ||
                (match extractFloat dcof with
                 | some v => if v ≥ 0.42 then true else false
                 | none => true)
            if (pei_ready ∨ heavy_rating) ∧ water_resistance ≠ "" ∧ dcof_ok then
              mk_response detail .garage_workshop_floor (some true) 0.8
                "Traffic rating and water resistance indicate it can handle garage/workshop abuse." s
            else
              mk_response detail .garage_workshop_floor none 0.35
                "Need high traffic rating, slip data, and water resistance to recommend garages/workshops." s
          let s5 := addSpec s4 "pei rating" pei
          if pei ≠ "" then
            match extractFloat pei with
            | some pei_val =>
              if pei_val ≥ 4 then afterPei true s5
              else if pei_val ≤ 2 then
                mk_response detail .garage_workshop_floor (some false) 0.9
                  "PEI rating is for light traffic, not the abrasion of a workshop." s5
              else afterPei false s5
            | none => afterPei false s5
          else afterPei false s5

/-- Model of `check_driveway_paver` (rules_engine.py lines 974-1052). -/
def check_driveway_paver (detail : ProductDetail) : UsageCheckResponse :=
  let m := build_spec_map detail
  let placement := dictGetD m "placement location" ""
  let thickness := dictGetD m "product thickness" ""
  let frost := dictGetD m "frost resistance" ""
  let water_absorption := dictGetD m "water absorption" ""
  let s0 := addSpec [] "placement location" placement
  if placement ≠ "" ∧ strContains (strLower placement) "indoor only" then
    mk_response detail .driveway_paver (some false) 0.9
      "Placement spec restricts use to indoor areas." s0
  else
    let outdoor_ready : Bool :=
      placement != "" &&
        (strContains (strLower placement) "outdoor" || strContains (strLower placement) "exterior")
    let s1 := addSpec s0 "product thickness" thickness
    let thickness_val : Option ℚ := if thickness ≠ "" then extractFloat thickness else none
    let thinFail : Bool :=
      match thickness_val with
      | some v => if v < 1 then true else false
      | none => false
    if thickness ≠ "" ∧ thinFail then
      mk_response detail .driveway_paver (some false) 0.9
        "Product thickness is under 1 inch, which is too thin for vehicle loads." s1
    else
      let s2 := addSpec s1 "frost resistance" frost
      if frost ≠ "" ∧ containsAny frost ["no", "not resistant"] then
        mk_response detail .driveway_paver (some false) 0.9
          "Spec indicates the paver is not frost resistant, which a driveway requires." s2
      else
        let frost_ok : Bool := frost != "" && containsAny frost ["yes", "resistant", "rated"]
        let s3 := addSpec s2 "water absorption" water_absorption
        let dense : Bool :=
          water_absorption != "" &&
            (match extractFloat water_absorption with
             | some v => if v ≤ 0.5 then true else false
             | none => false)
        let thick_ok : Bool :=
          match thickness_val with
          | some v => if v ≥ 1.25 then true else false
          | none => false
        if outdoor_ready ∧ thick_ok ∧ (frost_ok ∨ dense) then
          mk_response detail .driveway_paver (some true) 0.85
            "Thickness and freeze-thaw data indicate it can support vehicle traffic." s3
        else
          mk_response detail .driveway_paver none 0.35
            "Need outdoor rating plus thick, frost-resistant specs to approve driveway installs." s3

/-- Model of `check_stair_tread` (rules_engine.py lines 1055-1126). -/
def check_stair_tread (detail : ProductDetail) : UsageCheckResponse :=
  let m := build_spec_map detail
  let installation := dictGetD m "installation options" ""
  let placement := dictGetD m "placement location" ""
  let thickness := dictGetD m "product thickness" ""
  let floor_rating := dictGetD m "floor suitability rating" ""
  let s0 := addSpec [] "installation options" installation
  if installation ≠ "" ∧ strContains (strLower installation) "wall only" then
    mk_response detail .stair_tread (some false) 0.9
      "Installation options call out wall-only applications, not stairs." s0
  else
    let floor_allowed : Bool := installation != "" && strContains (strLower installation) "floor"
    let s1 := addSpec s0 "placement location" placement
    let s2 := addSpec s1 "product thickness" thickness
    let thickness_val : Option ℚ := if thickness ≠ "" then extractFloat thickness else none
    let thinFail : Bool :=
      match thickness_val with
      | some v => if v < 0.3 then true else false
      | none => false
    if thickness ≠ "" ∧ thinFail then
      mk_response detail .stair_tread (some false) 0.85
        "Material thinner than 0.3 inch is prone to breaking on stair nosings." s2
    else
      let s3 := addSpec s2 "floor suitability rating" floor_rating
      if floor_rating ≠ "" ∧ containsAny floor_rating ["wall only", "light wall"] then
        mk_response detail .stair_tread (some false) 0.9
          "Floor suitability rating does not allow foot traffic needed for stairs." s3
      else
        let thick_ok : Bool :=
          match thickness_val with
          | some v => if v ≥ 0.375 then true else false
          | none => true
        if floor_allowed ∧ thick_ok then
          mk_response detail .stair_tread (some true) 0.7
            "Installation options include floors and thickness appears adequate for stair nosings." s3
        else
          mk_response detail .stair_tread none 0.3
            "Need explicit stair trim or structural thickness to confirm suitability." s3

/-- Model of `check_commercial_kitchen_floor` (rules_engine.py lines 1129-1224). -/
def check_commercial_kitchen_floor (detail : ProductDetail) : UsageCheckResponse :=
  let m := build_spec_map detail
  let water_resistance := dictGetD m "water resistance" ""
  let pei := dictGetD m "pei rating" ""
  let floor_rating := dictGetD m "floor suitability rating" ""
  let dcof := pyOr (dictGetD m "dcof value" "") (dictGetD m "dcof" "")
  let material := dictGetD m "material" ""
  let s0 := addSpec [] "material" material
  if material ≠ "" ∧ containsAny material ["wood", "bamboo", "cork"] then
    mk_response detail .commercial_kitchen_floor (some false) 0.95
      "Wood/bio-based materials are not recommended for wet, greasy commercial kitchens." s0
  else
    let s1 := addSpec s0 "water resistance" water_resistance
    if water_resistance ≠ "" ∧
        containsAny water_resistance ["not water", "not resistant", "not recommended"] then
      mk_response detail .commercial_kitchen_floor (some false) 0.9
        "Spec says the surface does not tolerate water/chemicals - bad fit for commercial kitchens." s1
    else
      let s2 := addSpec s1 "dcof" dcof
      let dcofLow : Bool :=
        match extractFloat dcof with
        | some v => if v < 0.5 then true else false
        | none => false
      if dcof ≠ "" ∧ dcofLow then
        mk_response detail .commercial_kitchen_floor (some false) 0.9
          "DCOF is below the 0.50 wet-slip guideline for commercial kitchens." s2
      else
        let afterPei := fun (pei_ready : Bool) (s : SpecDict) =>
          let s4 := addSpec s "floor suitability rating" floor_rating
          let commercial_flag : Bool :=
            floor_rating != "" && containsAny floor_rating ["commercial", "heavy", "restaurant"]
          if floor_rating ≠ "" ∧ containsAny floor_rating ["residential only", "wall"] then
            mk_response detail .commercial_kitchen_floor (some false) 0.9
              "Floor suitability rating limits the product to residential/light use." s4
          else
            let dcof_ok : Bool :=
              (dcof == "") ||
                (match extractFloat dcof with
                 | some v => if v ≥ 0.5 then true else false
                 | none => true)
            if pei_ready ∧ commercial_flag ∧ dcof_ok then
              mk_response detail .commercial_kitchen_floor (some true) 0.85
                "Traffic, slip, and water-resistance specs align with commercial kitchen demands." s4
            else
              mk_response detail .commercial_kitchen_floor none 0.35
                "Need explicit commercial traffic, slip, and water-proof specs for kitchen approval." s4
        let s3 := addSpec s2 "pei rating" pei
        if pei ≠ "" then
          match extractFloat pei with
          | some pei_val =>
            if pei_val ≥ 4 then afterPei true s3
            else if pei_val ≤ 2 then
              mk_response detail .commercial_kitchen_floor (some false) 0.9
                "PEI rating is too light for high-traffic commercial kitchens." s3
            else afterPei false s3
          | none => afterPei false s3
        else afterPei false s3

/-- Model of `check_pool_interior` (rules_engine.py lines 1227-1308). -/
def check_pool_interior (detail : ProductDetail) : UsageCheckResponse :=
  let m := build_spec_map detail
  let water_absorption := dictGetD m "water absorption" ""
  let water_resistance := dictGetD m "water resistance" ""
  let placement := dictGetD m "placement location" ""
  let frost := dictGetD m "frost resistance" ""
  let s0 := addSpec [] "water absorption" water_absorption
  let highAbs : Bool :=
    match extractFloat water_absorption with
    | some v => if v > 3 then true else false
    | none => false
  if water_absorption ≠ "" ∧ highAbs then
    mk_response detail .pool_interior (some false) 0.95
      "Water absorption is too high for constant submersion." s0
  else
    let dense : Bool :=
      water_absorption != "" &&
        (match extractFloat water_absorption with
         | some v => if v ≤ 0.5 then true else false
         | none => false)
    let s1 := addSpec s0 "water resistance" water_resistance
    if water_resistance ≠ "" ∧
        containsAny water_resistance ["not water", "not resistant", "not recommended"] then
      mk_response detail .pool_interior (some false) 0.9
        "Spec explicitly says it is not water resistant - cannot be submerged." s1
    else
      let water_positive : Bool :=
        water_resistance != "" &&
          !(containsAny water_resistance ["not water", "not resistant", "not recommended"])
      let s2 := addSpec s1 "placement location" placement
      let exterior_flag : Bool :=
        placement != "" &&
          (strContains (strLower placement) "outdoor" || strContains (strLower placement) "exterior")
      let s3 := addSpec s2 "frost resistance" frost
      if frost ≠ "" ∧ containsAny frost ["no", "not resistant"] then
        mk_response detail .pool_interior (some false) 0.9
          "Lack of frost resistance risks cracking in freeze/thaw pool environments." s3
      else
        let frost_ok : Bool := frost != "" && containsAny frost ["yes", "resistant", "rated"]
        if dense ∧ water_positive ∧ (frost_ok ∨ exterior_flag) then
          mk_response detail .pool_interior (some true) 0.8
            "Low absorption and water/frost resistance indicate it can stay submerged." s3
        else
          mk_response detail .pool_interior none 0.3
            "Need dense body and submersion-rated specs to approve pool interiors." s3

/-- Model of `check_exterior_wall_cladding` (rules_engine.py lines 1311-1396). -/
def check_exterior_wall_cladding (detail : ProductDetail) : UsageCheckResponse :=
  let m := build_spec_map detail
  let placement := dictGetD m "placement location" ""
  let installation := dictGetD m "installation options" ""
  let frost := dictGetD m "frost resistance" ""
  let water_resistance := dictGetD m "water resistance" ""
  let s0 := addSpec [] "placement location" placement
  if placement ≠ "" ∧ strContains (strLower placement) "indoor only" then
    mk_response detail .exterior_wall_cladding (some false) 0.9
      "Placement spec restricts the product to interior installs." s0
  else
    let outdoor_flag : Bool :=
      placement != "" &&
        (strContains (strLower placement) "outdoor" || strContains (strLower placement) "exterior")
    let s1 := addSpec s0 "installation options" installation
    let wall_flag : Bool := installation != "" && strContains (strLower installation) "wall"
    if installation ≠ "" ∧ strContains (strLower installation) "floor only" then
      mk_response detail .exterior_wall_cladding (some false) 0.9
        "Installation options limit to floors, not wall cladding." s1
    else
      let s2 := addSpec s1 "frost resistance" frost
      if frost ≠ "" ∧ containsAny frost ["no", "not resistant"] then
        mk_response detail .exterior_wall_cladding (some false) 0.9
          "Spec indicates it cannot handle freeze/thaw on exterior walls." s2
      else
        let frost_ok : Bool := frost != "" && containsAny frost ["yes", "resistant", "rated"]
        let s3 := addSpec s2 "water resistance" water_resistance
        if water_resistance ≠ "" ∧
            containsAny water_resistance ["not water", "not resistant", "not recommended"] then
          mk_response detail .exterior_wall_cladding (some false) 0.9
            "Spec indicates poor water resistance - exterior exposure would cause failure." s3
        else
          if outdoor_flag ∧ wall_flag ∧ (frost_ok ∨ frost = "") then
            mk_response detail .exterior_wall_cladding (some true) 0.8
              "Outdoor placement plus wall installation instructions indicate facade suitability." s3
          else
            mk_response detail .exterior_wall_cladding none 0.35
              "Need explicit wall install + exterior/frost-resistant specs to approve facade use." s3

/-! ### The use-case registry (use_case_checks.py) -/

/-- Model of `USE_CASE_CHECKERS` (use_case_checks.py lines 8-28), as an association
list in source order. -/
def USE_CASE_CHECKERS : List (UseCase × (ProductDetail → UsageCheckResponse)) :=
  [ (.bathroom_floor, check_bathroom_floor),
    (.shower_floor, check_shower_floor),
    (.shower_wall, check_shower_wall),
    (.fireplace_surround, check_fireplace_surround),
    (.radiant_heat, check_radiant_heat),
    (.outdoor_patio, check_outdoor_patio),
    (.pool_deck, check_pool_deck),
    (.kitchen_backsplash, check_kitchen_backsplash),
    (.commercial_heavy_floor, check_commercial_heavy_floor),
    (.laundry_room_floor, check_laundry_room_floor),
    (.basement_floor, check_basement_floor),
    (.steam_shower_enclosure, check_steam_shower_enclosure),
    (.outdoor_kitchen_counter, check_outdoor_kitchen_counter),
    (.garage_workshop_floor, check_garage_workshop_floor),
    (.driveway_paver, check_driveway_paver),
    (.stair_tread, check_stair_tread),
    (.commercial_kitchen_floor, check_commercial_kitchen_floor),
    (.pool_interior, check_pool_interior),
    (.exterior_wall_cladding, check_exterior_wall_cladding) ]

/-- Model of `USE_CASE_CHECKERS.get(use_case)`: dictionary lookup by use case. -/
def lookupChecker (uc : UseCase) : Option (ProductDetail → UsageCheckResponse) :=
  (USE_CASE_CHECKERS.find? (fun p => decide (p.1 = uc))).map Prod.snd

/-- Run the evaluator registered for a use case (total view of the
registry, used to quantify over all evaluators at once). -/
def runChecker (uc : UseCase) (detail : ProductDetail) : UsageCheckResponse :=
  match uc with
  | .bathroom_floor => check_bathroom_floor detail
  | .shower_floor => check_shower_floor detail
  | .shower_wall => check_shower_wall detail
  | .fireplace_surround => check_fireplace_surround detail
  | .radiant_heat => check_radiant_heat detail
  | .outdoor_patio => check_outdoor_patio detail
  | .pool_deck => check_pool_deck detail
  | .kitchen_backsplash => check_kitchen_backsplash detail
  | .commercial_heavy_floor => check_commercial_heavy_floor detail
  | .laundry_room_floor => check_laundry_room_floor detail
  | .basement_floor => check_basement_floor detail
  | .steam_shower_enclosure => check_steam_shower_enclosure detail
  | .outdoor_kitchen_counter => check_outdoor_kitchen_counter detail
  | .garage_workshop_floor => check_garage_workshop_floor detail
  | .driveway_paver => check_driveway_paver detail
  | .stair_tread => check_stair_tread detail
  | .commercial_kitchen_floor => check_commercial_kitchen_floor detail
  | .pool_interior => check_pool_interior detail
  | .exterior_wall_cladding => check_exterior_wall_cladding detail

/-! ### JSON values and `json.loads` (used by chat_service.py)

A faithful executable model of `json.loads` for ASCII documents: numbers
are exact rationals, object duplicates keep the last value, and the whole
input (up to surrounding whitespace) must be consumed.  The non-standard
`NaN`/`Infinity` extensions Python accepts are outside the modelled
fragment (no claim involves them). -/

inductive Json where
  | null
  | bool (b : Bool)
  | num (q : ℚ)
  | str (s : String)
  | arr (elems : List Json)
  | obj (fields : List (String × Json))

/-- JSON insignificant whitespace. -/
def jskipWs (cs : List Char) : List Char :=
  cs.dropWhile (fun c => c = ' ' || c = '\t' || c = '\n' || c = '\r')

/-- Hex digit value. -/
def hexVal (c : Char) : Option Nat :=
  if '0' ≤ c ∧ c ≤ '9' then some (c.toNat - '0'.toNat)
  else if 'a' ≤ c ∧ c ≤ 'f' then some (c.toNat - 'a'.toNat + 10)
  else if 'A' ≤ c ∧ c ≤ 'F' then some (c.toNat - 'A'.toNat + 10)
  else none

/-- Parse the body of a JSON string after the opening quote. -/
def parseJStringAux : Nat → List Char → List Char → Option (String × List Char)
  | 0, _, _ => none
  | _fuel + 1, _acc, [] => none
  | fuel + 1, acc, c :: rest =>
    if c = '"' then some (⟨acc.reverse⟩, rest)
    else if c = '\\' then
      match rest with
      | [] => none
      | e :: rest' =>
        if e = '"' then parseJStringAux fuel ('"' :: acc) rest'
        else if e = '\\' then parseJStringAux fuel ('\\' :: acc) rest'
        else if e = '/' then parseJStringAux fuel ('/' :: acc) rest'
        else if e = 'b' then parseJStringAux fuel ('\x08' :: acc) rest'
        else if e = 'f' then parseJStringAux fuel ('\x0c' :: acc) rest'
        else if e = 'n' then parseJStringAux fuel ('\n' :: acc) rest'
        else if e = 'r' then parseJStringAux fuel ('\r' :: acc) rest'
        else if e = 't' then parseJStringAux fuel ('\t' :: acc) rest'
        else if e = 'u' then
          match rest' with
          | h1 :: h2 :: h3 :: h4 :: rest'' =>
            match hexVal h1, hexVal h2, hexVal h3, hexVal h4 with
            | some a, some b, some c', some d =>
              parseJStringAux fuel (Char.ofNat (((a * 16 + b) * 16 + c') * 16 + d) :: acc) rest''
            | _, _, _, _ => none
          | _ => none
        else none
    else if c.toNat < 32 then none
    else parseJStringAux fuel (c :: acc) rest

/-- Parse a JSON string literal (including the opening quote). -/
def parseJString (cs : List Char) : Option (String × List Char) :=
  match cs with
  | '"' :: rest => parseJStringAux (rest.length + 1) [] rest
  | _ => none

/-- Parse a JSON number per the RFC grammar, as an exact rational. -/
def parseJNumber (cs : List Char) : Option (ℚ × List Char) :=
  let (neg, cs1) :=
    match cs with
    | '-' :: rest => (true, rest)
    | _ => (false, cs)
  match takeDigits cs1 with
  | none => none
  | some (ids, cs2) =>
    -- leading zeros are rejected ("01" is invalid JSON)
    if ids.length > 1 ∧ ids.headI = '0' then none
    else
      let (fds, cs3) :=
        match cs2 with
        | '.' :: rest =>
          match takeDigits rest with
          | some (ds, rest') => (ds, some rest')
          | none => ([], none)
        | _ => ([], some cs2)
      match cs3 with
      | none => none
      | some cs3 =>
        let expPart : Option (Int × List Char) :=
          match cs3 with
          | 'e' :: rest | 'E' :: rest =>
            let (esign, rest') :=
              match rest with
              | '+' :: r => ((1 : Int), r)
              | '-' :: r => ((-1 : Int), r)
              | _ => ((1 : Int), rest)
            match takeDigits rest' with
            | some (eds, rest'') => some (esign * (digitsVal eds : Int), rest'')
            | none => none
          | _ => some (0, cs3)
        match expPart with
        | none => none
        | some (e, cs4) =>
          let mantissa : Nat := digitsVal (ids ++ fds)
          let exp : Int := e - (fds.length : Int)
          let mag : ℚ :=
            if 0 ≤ exp then (mantissa : ℚ) * (10 : ℚ) ^ exp.toNat
            else (mantissa : ℚ) / (10 : ℚ) ^ (-exp).toNat
          some (if neg then -mag else mag, cs4)

mutual

/-- Parse one JSON value (leading whitespace allowed). -/
def parseJValue : Nat → List Char → Option (Json × List Char)
  | 0, _ => none
  | fuel + 1, cs =>
    match jskipWs cs with
    | [] => none
    | c :: rest =>
      if c = '"' then
        match parseJString (c :: rest) with
        | some (s, rest') => some (Json.str s, rest')
        | none => none
      else if c = '{' then
        match jskipWs rest with
        | '}' :: rest' => some (Json.obj [], rest')
        | rest' => parseJMembers fuel rest' []
      else if c = '[' then
        match jskipWs rest with
        | ']' :: rest' => some (Json.arr [], rest')
        | rest' => parseJElems fuel rest' []
      else if c = 't' then
        match c :: rest with
        | 't' :: 'r' :: 'u' :: 'e' :: rest' => some (Json.bool true, rest')
        | _ => none
      else if c = 'f' then
        match c :: rest with
        | 'f' :: 'a' :: 'l' :: 's' :: 'e' :: rest' => some (Json.bool false, rest')
        | _ => none
      else if c = 'n' then
        match c :: rest with
        | 'n' :: 'u' :: 'l' :: 'l' :: rest' => some (Json.null, rest')
        | _ => none
      else
        match parseJNumber (c :: rest) with
        | some (q, rest') => some (Json.num q, rest')
        | none => none

/-- Parse the members of a JSON object (positioned at a key). -/
def parseJMembers : Nat → List Char → List (String × Json) → Option (Json × List Char)
  | 0, _, _ => none
  | fuel + 1, cs, acc =>
    match parseJString (jskipWs cs) with
    | none => none
    | some (k, rest) =>
      match jskipWs rest with
      | ':' :: rest' =>
        match parseJValue fuel rest' with
        | none => none
        | some (v, rest'') =>
          match jskipWs rest'' with
          | ',' :: rest''' => parseJMembers fuel rest''' (acc ++ [(k, v)])
          | '}' :: rest''' => some (Json.obj (acc ++ [(k, v)]), rest''')
          | _ => none
      | _ => none

/-- Parse the elements of a JSON array (positioned at a value). -/
def parseJElems : Nat → List Char → List Json → Option (Json × List Char)
  | 0, _, _ => none
  | fuel + 1, cs, acc =>
    match parseJValue fuel cs with
    | none => none
    | some (v, rest) =>
      match jskipWs rest with
      | ',' :: rest' => parseJElems fuel rest' (acc ++ [v])
      | ']' :: rest' => some (Json.arr (acc ++ [v]), rest')
      | _ => none

end

/-- Model of `json.loads`: the whole document must be consumed. -/
def jsonParse (s : String) : Option Json :=
  match parseJValue (2 * s.length + 2) s.data with
  | some (v, rest) => if jskipWs rest = [] then some v else none
  | none => none

/-- Python-dict lookup on a parsed object: a duplicate key keeps the last
value, as `json.loads` does. -/
def jsonObjGet (fields : List (String × Json)) (k : String) : Option Json :=
  fields.foldl (fun acc p => if p.1 = k then some p.2 else acc) none

/-- Python truthiness of a JSON-decoded value. -/
def jsonTruthy : Json → Bool
  | .null => false
  | .bool b => b
  | .num q => if q = 0 then false else true
  | .str s => s != ""
  | .arr xs => !xs.isEmpty
  | .obj fs => !fs.isEmpty

/-! ### `ChatService._parse_action` (chat_service.py lines 209-226) -/

/-- The substring matched by `re.search(r"\x7b.*\x7d", content, re.DOTALL)`:
from the first opening brace through the last closing brace, if the
closing one follows the opening one. -/
def braceSub (cs : List Char) : Option (List Char) :=
  let pre := cs.dropWhile (fun c => c ≠ '{')
  let sub := (pre.reverse.dropWhile (fun c => c ≠ '}')).reverse
  if sub = [] then none else some sub

/-- Does the parsed object carry `action` equal to `call_tool` or
`final_response`? -/
def recognizedAction (fields : List (String × Json)) : Bool :=
  match jsonObjGet fields "action" with
  | some (Json.str t) => t == "call_tool" || t == "final_response"
  | _ => false

/-- Step (a) of `_parse_action`: strict parse of the whole content as an
object with a recognised `action`. -/
def strictIntent (content : String) : Option (List (String × Json)) :=
  match jsonParse content with
  | some (Json.obj fields) => if recognizedAction fields then some fields else none
  | _ => none

/-- Step (b) of `_parse_action`: parse the brace-delimited substring and
accept any object with a truthy `action`. -/
def looseIntent (content : String) : Option (List (String × Json)) :=
  match braceSub content.data with
  | some sub =>
    match jsonParse ⟨sub⟩ with
    | some (Json.obj fields) =>
      if jsonTruthy ((jsonObjGet fields "action").getD Json.null) then some fields else none
    | _ => none
  | none => none

/-- Model of `ChatService._parse_action` (chat_service.py lines 209-226):
returns the parsed intent dictionary, falling back to wrapping the raw
(stripped) content as a final response. -/
def parseAction (raw : String) : List (String × Json) :=
  let content := pyStrip raw
  match strictIntent content with
  | some fields => fields
  | none =>
    match looseIntent content with
    | some fields => fields
    | none => [("action", Json.str "final_response"), ("content", Json.str content)]

/-! ### `ChatService.handle_chat` tool loop (chat_service.py lines 117-143)

The LLM and the tool executor are the external collaborators: the LLM is
a function from the call index to the assistant text it returns, and the
tool executor maps `(tool_name, arguments)` to either a result text plus
newly referenced products, or a request-terminating error
(`_execute_tool`'s `HTTPException`s). -/

/-- Model of `MAX_TOOL_CALLS` (chat_service.py line 31). -/
def MAX_TOOL_CALLS : Nat := 3

/-- External tool executor: `_execute_tool` reads the catalog through the
db connection, so the loop is parametric in its behaviour. -/
def ToolFn : Type :=
  Option Json → Json → Except String (String × List ProductDetail)

/-- How a chat request ends. -/
inductive ChatOutcome where
  /-- a `final_response` intent: the response message content and the
  deduplicated referenced products -/
  | final (content : String) (referenced : List ProductDetail)
  /-- a tool raised (unknown tool, missing argument, unknown sku, ...) -/
  | toolFailure (message : String)
  /-- the iteration cap was exhausted: HTTP 500 "Too many tool calls
  without a final response." -/
  | budgetExhausted
  /-- Model of `final_text.strip()` on a truthy non-string `content` field -/
  | crash
  deriving DecidableEq, Repr

/-- Model of `_dedupe_products` (chat_service.py lines 76-85): first occurrence of
each sku wins. -/
def dedupeProductsAux (seen : List String) : List ProductDetail → List ProductDetail
  | [] => []
  | d :: rest =>
    if d.product.sku ∈ seen then dedupeProductsAux seen rest
    else d :: dedupeProductsAux (d.product.sku :: seen) rest

/-- Model of `_dedupe_products` (chat_service.py lines 76-85). -/
def dedupeProducts (details : List ProductDetail) : List ProductDetail :=
  dedupeProductsAux [] details

/-- Is the parsed intent a tool call (`action["action"] == "call_tool"`)? -/
def isCallTool (fields : List (String × Json)) : Bool :=
  match jsonObjGet fields "action" with
  | some (Json.str t) => t == "call_tool"
  | _ => false

/-- The `for _ in range(MAX_TOOL_CALLS)` loop of `handle_chat`
(chat_service.py lines 117-143).  `fuel` is the remaining iterations,
`calls` the number of LLM invocations made so far; the result carries the
total number of LLM invocations. -/
def agentLoopAux (llm : Nat → String) (tool : ToolFn) :
    Nat → Nat → List ProductDetail → ChatOutcome × Nat
  | 0, calls, _refs => (ChatOutcome.budgetExhausted, calls)
  | fuel + 1, calls, refs =>
    let assistant_content := llm calls
    let action := parseAction assistant_content
    if isCallTool action then
      match tool (jsonObjGet action "tool_name") ((jsonObjGet action "arguments").getD (Json.obj [])) with
      | .error e => (ChatOutcome.toolFailure e, calls + 1)
      | .ok (_text, newRefs) => agentLoopAux llm tool fuel (calls + 1) (refs ++ newRefs)
    else
      match jsonObjGet action "content" with
      | some (Json.str s) =>
        if s ≠ "" then (ChatOutcome.final (pyStrip s) (dedupeProducts refs), calls + 1)
        else (ChatOutcome.final (pyStrip assistant_content) (dedupeProducts refs), calls + 1)
      | some v =>
        if jsonTruthy v then (ChatOutcome.crash, calls + 1)
        else (ChatOutcome.final (pyStrip assistant_content) (dedupeProducts refs), calls + 1)
      | none => (ChatOutcome.final (pyStrip assistant_content) (dedupeProducts refs), calls + 1)

/-- The bounded tool loop of `handle_chat`, starting from the products the
context builder already retrieved. -/
def agentLoop (llm : Nat → String) (tool : ToolFn) (retrieved : List ProductDetail) :
    ChatOutcome × Nat :=
  agentLoopAux llm tool MAX_TOOL_CALLS 0 retrieved

/-! ### `ChatService._prepare_context` (chat_service.py lines 163-207) -/

/-- The sku dedupe loop of `_prepare_context`: keep the first occurrence
of each truthy sku. -/
def dedupeSkusAux (seen : List String) : List String → List String
  | [] => []
  | s :: rest =>
    if s ≠ "" ∧ s ∉ seen then s :: dedupeSkusAux (s :: seen) rest
    else dedupeSkusAux seen rest

/-- The candidate-sku pipeline of `_prepare_context` (chat_service.py
lines 171-190): seed with the active sku, append lexical then semantic
hits when the query is non-blank, dedupe preserving first-seen order,
truncate to `top_k`.  The lexical and semantic hit lists are the external
search results. -/
def prepareContextSkus (active_sku : Option String) (query : String)
    (lexical semantic : List String) (top_k : Nat) : List String :=
  let seeded : List String :=
    match active_sku with
    | some s => if s ≠ "" then [s] else []
    | none => []
  let candidates :=
    seeded ++ (if pyStrip query ≠ "" then lexical ++ semantic else [])
  (dedupeSkusAux [] candidates).take top_k

/-- The detail-resolution step of `_prepare_context` (chat_service.py
lines 189-195): skus that fail to resolve are dropped silently. -/
def prepareContextDetails (resolve : String → Option ProductDetail)
    (active_sku : Option String) (query : String)
    (lexical semantic : List String) (top_k : Nat) : List ProductDetail :=
  (prepareContextSkus active_sku query lexical semantic top_k).filterMap resolve

/-! ### Derived notions used to state the claims, and concrete data -/

/-- Shorter-value-wins combination, the conflict policy of
`build_spec_map`: a new value replaces the current one only when strictly
shorter. -/
def chooseShorter (acc : Option String) (v : String) : Option String :=
  match acc with
  | none => some v
  | some a => if v.length < a.length then some v else acc

/-- Leftmost shortest element of a list of values: the first-seen value of
minimal character length. -/
def leftmostShortest (vs : List String) : Option String :=
  vs.foldl chooseShorter none

/-- Normalised values of all records whose normalised key is `k` (records
with an empty trimmed key are never looked up). -/
def valuesFor (k : String) (specs : List ProductSpec) : List String :=
  if k = "" then []
  else (specs.filter (fun r => normKey r.spec_key == k)).map (fun r => collapseWs r.spec_value)

/-- Build a test product detail from a sku and raw attribute records. -/
def mkBareDetail (sku : String) (specs : List (String × String)) : ProductDetail :=
  ⟨{ sku := sku }, specs.map (fun p => ⟨p.1, p.2⟩), [], []⟩

/-- A product whose only spec is a water-resistance record. -/
def dWaterOnly : ProductDetail :=
  mkBareDetail "100100100" [("Water Resistance", "Water Resistant")]

/-- A product with no attribute records at all. -/
def dNoSpecs : ProductDetail :=
  mkBareDetail "100100101" []

/-- A fireplace-surround value that contains the phrase "not suitable". -/
def dFireplaceNeg : ProductDetail :=
  mkBareDetail "100100102" [("Fireplace Surround Use", "Not Suitable for Fireplace Surrounds")]

/-- A radiant-heat value that contains the phrase "not compatible". -/
def dRadiantNeg : ProductDetail :=
  mkBareDetail "100100103" [("Radiant Heat Compatible", "Not Compatible with Radiant Heat")]

/-- A pool-deck candidate: outdoor placement, positive water resistance
and a DCOF of 0.55. -/
def dPoolDcof : ProductDetail :=
  mkBareDetail "100100104"
    [("Placement Location", "Indoor/Outdoor"),
     ("Water Resistance", "Water Resistant"),
     ("DCOF Value", "0.55")]

/-- An assistant message that is a well-formed tool-call intent. -/
def callToolText : String :=
  "\x7b\"action\":\"call_tool\",\"tool_name\":\"search_products\",\"arguments\":\x7b\"query\":\"tile\"\x7d\x7d"

/-- A tool executor that always succeeds and references no products. -/
def okTool : ToolFn :=
  fun _ _ => .ok ("\x7b\"results\":[]\x7d", [])

/-- An assistant message that is plain prose (no braces, not JSON), with
surrounding whitespace. -/
def proseText : String :=
  "  The best tile for showers is porcelain.  "

/-- A product with a duplicated attribute key in variant spellings, whose
second value is the shorter. -/
def dDupSpecs : ProductDetail :=
  mkBareDetail "100100105" [("Color", "Glossy  Red Finish"), (" COLOR ", "Red")]

/-! ## Helper lemmas -/

theorem dropWhile_head_false (p : Char → Bool) (l : List Char) :
    ∀ c, (l.dropWhile p).head? = some c → p c = false := by
  induction l with
  | nil => intro c h; simp [List.dropWhile] at h
  | cons x xs ih =>
    intro c h
    rw [List.dropWhile_cons] at h
    by_cases hx : p x = true
    · rw [if_pos hx] at h; exact ih c h
    · rw [if_neg hx] at h
      simp only [List.head?_cons, Option.some.injEq] at h
      subst h
      exact Bool.not_eq_true _ ▸ (Bool.eq_false_iff.mpr hx)

theorem dropWhile_eq_self (p : Char → Bool) (l : List Char)
    (h : ∀ c, l.head? = some c → p c = false) : l.dropWhile p = l := by
  cases l with
  | nil => rfl
  | cons x xs =>
    rw [List.dropWhile_cons, if_neg]
    simp [h x rfl]

theorem pyStripL_idem (l : List Char) : pyStripL (pyStripL l) = pyStripL l := by
  unfold pyStripL
  set a := l.dropWhile isSpaceChar with ha
  set b := a.reverse.dropWhile isSpaceChar with hb
  have hr_head : ∀ c, b.reverse.head? = some c → isSpaceChar c = false := by
    intro c hc
    have hsuf : b <:+ a.reverse := hb ▸ List.dropWhile_suffix _
    have hpre : b.reverse <+: a := by
      have h1 : b.reverse <+: a.reverse.reverse := List.reverse_prefix.mpr hsuf
      simpa using h1
    obtain ⟨t, ht⟩ := hpre
    have hhead : a.head? = some c := by
      rw [← ht, List.head?_append, hc]; rfl
    exact dropWhile_head_false _ _ _ (ha ▸ hhead)
  have h1 : b.reverse.dropWhile isSpaceChar = b.reverse :=
    dropWhile_eq_self _ _ hr_head
  have h2 : b.dropWhile isSpaceChar = b :=
    dropWhile_eq_self _ _ (fun c hc => dropWhile_head_false _ _ _ (hb ▸ hc))
  rw [h1]
  simp [h2]

theorem pyStrip_idem (s : String) : pyStrip (pyStrip s) = pyStrip s := by
  unfold pyStrip
  exact congrArg String.mk (pyStripL_idem s.data)

theorem char_toNat_inj {a b : Char} (h : a.toNat = b.toNat) : a = b :=
  Char.ext (UInt32.ext h)

theorem charOfNat_toNat {n : Nat} (h : n < 55296) : (Char.ofNat n).toNat = n := by
  unfold Char.ofNat
  rw [dif_pos (Or.inl h)]
  rfl

theorem toLower_toLower (c : Char) : c.toLower.toLower = c.toLower := by
  unfold Char.toLower
  by_cases h : c.toNat ≥ 65 ∧ c.toNat ≤ 90
  · rw [if_pos h]
    have hv : (Char.ofNat (c.toNat + 32)).toNat = c.toNat + 32 :=
      charOfNat_toNat (by omega)
    rw [if_neg (by rw [hv]; omega)]
  · rw [if_neg h, if_neg h]

theorem isSpaceChar_of_big {x : Char} (hx : 33 ≤ x.toNat) : isSpaceChar x = false := by
  have key : ∀ d : Char, d.toNat ≤ 32 → (x = d) → False := by
    intro d hd he
    have h2 := congrArg Char.toNat he
    omega
  unfold isSpaceChar
  simp only [Bool.or_eq_false_iff, decide_eq_false_iff_not]
  exact ⟨⟨⟨⟨⟨key _ (by decide), key _ (by decide)⟩, key _ (by decide)⟩,
    key _ (by decide)⟩, key _ (by decide)⟩, key _ (by decide)⟩

theorem isSpaceChar_toLower (c : Char) : isSpaceChar c.toLower = isSpaceChar c := by
  unfold Char.toLower
  by_cases h : c.toNat ≥ 65 ∧ c.toNat ≤ 90
  · rw [if_pos h]
    have hv : (Char.ofNat (c.toNat + 32)).toNat = c.toNat + 32 :=
      charOfNat_toNat (by omega)
    rw [isSpaceChar_of_big (by omega), isSpaceChar_of_big (by omega)]
  · rw [if_neg h]

theorem pyStrip_strLower (s : String) : pyStrip (strLower s) = strLower (pyStrip s) := by
  unfold pyStrip strLower pyStripL
  have hpf : (isSpaceChar ∘ Char.toLower) = isSpaceChar := funext isSpaceChar_toLower
  simp only [List.dropWhile_map, hpf, ← List.map_reverse]

theorem strLower_strLower (s : String) : strLower (strLower s) = strLower s := by
  unfold strLower
  have : (Char.toLower ∘ Char.toLower) = Char.toLower := funext toLower_toLower
  simp only [List.map_map, this]

theorem normKey_trimmed (s : String) : pyStrip (normKey s) = normKey s := by
  unfold normKey
  rw [pyStrip_strLower, pyStrip_idem]

theorem normKey_lowered (s : String) : strLower (normKey s) = normKey s := by
  unfold normKey
  rw [strLower_strLower]

theorem wordsAux_word (w : List Char) (hw : ∀ c ∈ w, isSpaceChar c = false) (l : List Char) :
    wordsAux (w ++ l) = (w ++ (wordsAux l).1, (wordsAux l).2) := by
  induction w with
  | nil => simp
  | cons c cs ih =>
    simp only [List.cons_append, wordsAux, List.append_eq]
    rw [ih (fun x hx => hw x (List.mem_cons_of_mem _ hx))]
    rw [if_neg (by simp [hw c (List.mem_cons_self c cs)])]

theorem wordsAux_join (w : List Char) (ws : List (List Char))
    (h : ∀ u ∈ w :: ws, u ≠ [] ∧ ∀ c ∈ u, isSpaceChar c = false) :
    wordsAux (joinWords (w :: ws)) = (w, ws) := by
  induction ws generalizing w with
  | nil =>
    show wordsAux (joinWords [w]) = (w, [])
    have : joinWords [w] = w ++ [] := by simp [joinWords]
    rw [this, wordsAux_word w (h w (List.mem_cons_self _ _)).2]
    simp [wordsAux]
  | cons w' rest ih =>
    show wordsAux (w ++ ' ' :: joinWords (w' :: rest)) = (w, w' :: rest)
    rw [wordsAux_word w (h w (List.mem_cons_self _ _)).2]
    have hinner : wordsAux (joinWords (w' :: rest)) = (w', rest) :=
      ih w' (fun u hu => h u (List.mem_cons_of_mem _ hu))
    have hspace : wordsAux (' ' :: joinWords (w' :: rest)) = ([], w' :: rest) := by
      simp only [wordsAux, hinner]
      rw [if_pos (by decide)]
      have hw' : w' ≠ [] := (h w' (List.mem_cons_of_mem _ (List.mem_cons_self _ _))).1
      simp [hw']
    rw [hspace]
    simp

theorem pySplitL_joinWords (ws : List (List Char))
    (h : ∀ u ∈ ws, u ≠ [] ∧ ∀ c ∈ u, isSpaceChar c = false) :
    pySplitL (joinWords ws) = ws := by
  cases ws with
  | nil => rfl
  | cons w rest =>
    unfold pySplitL
    rw [wordsAux_join w rest h]
    have hw : w ≠ [] := (h w (List.mem_cons_self _ _)).1
    simp [hw]

theorem wordsAux_ok (l : List Char) :
    (∀ c ∈ (wordsAux l).1, isSpaceChar c = false) ∧
    (∀ w ∈ (wordsAux l).2, w ≠ [] ∧ ∀ c ∈ w, isSpaceChar c = false) := by
  induction l with
  | nil => exact ⟨by simp [wordsAux], by simp [wordsAux]⟩
  | cons c rest ih =>
    obtain ⟨ih1, ih2⟩ := ih
    simp only [wordsAux]
    by_cases hc : isSpaceChar c
    · rw [if_pos hc]
      refine ⟨by simp, ?_⟩
      by_cases hcur : (wordsAux rest).1 = []
      · simpa [hcur] using ih2
      · rw [if_neg hcur]
        intro w hw
        rcases List.mem_cons.mp hw with h | h
        · exact h ▸ ⟨hcur, ih1⟩
        · exact ih2 w h
    · rw [if_neg hc]
      refine ⟨?_, ih2⟩
      intro x hx
      rcases List.mem_cons.mp hx with h | h
      · exact h ▸ Bool.eq_false_iff.mpr hc
      · exact ih1 x h

theorem pySplitL_words_ok (l : List Char) :
    ∀ w ∈ pySplitL l, w ≠ [] ∧ ∀ c ∈ w, isSpaceChar c = false := by
  obtain ⟨h1, h2⟩ := wordsAux_ok l
  unfold pySplitL
  rcases hwa : wordsAux l with ⟨cur, ws⟩
  rw [hwa] at h1 h2
  simp only at h1 h2 ⊢
  by_cases hcur : cur = []
  · simpa [hcur] using h2
  · rw [if_neg hcur]
    intro w hw
    rcases List.mem_cons.mp hw with h | h
    · exact h ▸ ⟨hcur, h1⟩
    · exact h2 w h

theorem collapseWs_idem (s : String) : collapseWs (collapseWs s) = collapseWs s := by
  show (⟨joinWords (pySplitL (joinWords (pySplitL s.data)))⟩ : String) =
    ⟨joinWords (pySplitL s.data)⟩
  rw [pySplitL_joinWords _ (pySplitL_words_ok _)]

theorem strContains_mono {hay n m : String} (h : strContains hay m = true)
    (hnm : n.data <:+: m.data) : strContains hay n = true := by
  unfold strContains at h ⊢
  exact decide_eq_true (hnm.trans (of_decide_eq_true h))

theorem dictGet_dictUpd (m : SpecDict) (k v k' : String) :
    dictGet (dictUpd m k v) k' = if k = k' then some v else dictGet m k' := by
  induction m with
  | nil => simp [dictUpd, dictGet]
  | cons p rest ih =>
    obtain ⟨pk, pv⟩ := p
    simp only [dictUpd]
    by_cases hpk : pk = k
    · subst hpk
      simp only [if_pos rfl, dictGet]
      by_cases h' : pk = k' <;> simp [h']
    · rw [if_neg hpk]
      simp only [dictGet, ih]
      by_cases h' : pk = k'
      · rw [if_pos h']
        rw [if_neg (fun he => hpk (h'.trans he.symm))]
        rw [if_pos h']
      · rw [if_neg h', if_neg h']

theorem specStep_get (m : SpecDict) (r : ProductSpec) (k : String) :
    dictGet (specStep m r) k =
      if normKey r.spec_key = k ∧ k ≠ "" then
        chooseShorter (dictGet m k) (collapseWs r.spec_value)
      else dictGet m k := by
  simp only [specStep]
  by_cases hkey : normKey r.spec_key = ""
  · rw [if_pos hkey]
    rw [if_neg (fun hc => hc.2 (hc.1 ▸ hkey))]
  · rw [if_neg hkey]
    by_cases heq : normKey r.spec_key = k
    · subst heq
      rw [if_pos ⟨rfl, hkey⟩]
      rcases hget : dictGet m (normKey r.spec_key) with _ | e <;>
        dsimp only <;> simp only [chooseShorter]
      · rw [dictGet_dictUpd, if_pos rfl]
      · by_cases hlen : (collapseWs r.spec_value).length < e.length
        · rw [if_pos hlen, if_pos hlen, dictGet_dictUpd, if_pos rfl]
        · rw [if_neg hlen, if_neg hlen]
          exact hget
    · rw [if_neg (fun hc => heq hc.1)]
      rcases hget : dictGet m (normKey r.spec_key) with _ | e <;> dsimp only
      · rw [dictGet_dictUpd, if_neg heq]
      · by_cases hlen : (collapseWs r.spec_value).length < e.length
        · rw [if_pos hlen, dictGet_dictUpd, if_neg heq]
        · rw [if_neg hlen]

theorem foldl_specStep_get (specs : List ProductSpec) (m : SpecDict) (k : String) :
    dictGet (List.foldl specStep m specs) k =
      List.foldl chooseShorter (dictGet m k) (valuesFor k specs) := by
  induction specs generalizing m with
  | nil => by_cases hk : k = "" <;> simp [valuesFor, hk]
  | cons r rest ih =>
    rw [List.foldl_cons, ih]
    by_cases hk : k = ""
    · subst hk
      have h1 : valuesFor "" (r :: rest) = [] := by simp [valuesFor]
      have h2 : valuesFor "" rest = [] := by simp [valuesFor]
      rw [h1, h2, specStep_get, if_neg (fun hc => hc.2 rfl)]
    · have hvf : ∀ l, valuesFor k l =
          (l.filter (fun s => normKey s.spec_key == k)).map (fun s => collapseWs s.spec_value) := by
        intro l; simp [valuesFor, hk]
      by_cases heq : normKey r.spec_key = k
      · have : valuesFor k (r :: rest) = collapseWs r.spec_value :: valuesFor k rest := by
          rw [hvf, hvf, List.filter_cons, if_pos (by simp [heq]), List.map_cons]
        rw [this, List.foldl_cons, specStep_get, if_pos ⟨heq, hk⟩]
      · have : valuesFor k (r :: rest) = valuesFor k rest := by
          rw [hvf, hvf, List.filter_cons, if_neg (by simp [heq])]
        rw [this, specStep_get, if_neg (fun hc => heq hc.1)]

theorem build_spec_map_get (detail : ProductDetail) (k : String) :
    dictGet (build_spec_map detail) k = leftmostShortest (valuesFor k detail.specs) := by
  unfold build_spec_map leftmostShortest
  rw [foldl_specStep_get]
  rfl

theorem foldl_chooseShorter_some (vs : List String) :
    ∀ (acc : Option String) (v : String), List.foldl chooseShorter acc vs = some v →
      acc = some v ∨ v ∈ vs := by
  induction vs with
  | nil => intro acc v h; exact Or.inl h
  | cons x rest ih =>
    intro acc v h
    rw [List.foldl_cons] at h
    rcases ih _ v h with h' | h'
    · rcases acc with _ | a
      · simp only [chooseShorter] at h'
        exact Or.inr (by simp only [Option.some.injEq] at h'; simp [h'])
      · simp only [chooseShorter] at h'
        by_cases hlen : x.length < a.length
        · rw [if_pos hlen] at h'
          exact Or.inr (by simp only [Option.some.injEq] at h'; simp [h'])
        · rw [if_neg hlen] at h'
          exact Or.inl h'
    · exact Or.inr (List.mem_cons_of_mem _ h')

theorem leftmostShortest_mem {vs : List String} {v : String}
    (h : leftmostShortest vs = some v) : v ∈ vs := by
  rcases foldl_chooseShorter_some vs none v h with h' | h'
  · exact absurd h' (by simp)
  · exact h'

theorem foldl_chooseShorter_min (vs : List String) :
    ∀ (acc : Option String) (v : String), List.foldl chooseShorter acc vs = some v →
      (∀ u ∈ vs, v.length ≤ u.length) ∧ (∀ a, acc = some a → v.length ≤ a.length) := by
  induction vs with
  | nil =>
    intro acc v h
    refine ⟨by simp, fun a ha => ?_⟩
    rw [ha] at h
    simp only [List.foldl_nil, Option.some.injEq] at h
    rw [h]
  | cons x rest ih =>
    intro acc v h
    rw [List.foldl_cons] at h
    obtain ⟨hrest, hacc⟩ := ih _ v h
    have hx : v.length ≤ x.length := by
      rcases acc with _ | a
      · exact hacc x (by simp [chooseShorter])
      · by_cases hlen : x.length < a.length
        · exact hacc x (by simp only [chooseShorter]; rw [if_pos hlen])
        · have := hacc a (by simp only [chooseShorter]; rw [if_neg hlen])
          omega
    refine ⟨fun u hu => ?_, fun a ha => ?_⟩
    · rcases List.mem_cons.mp hu with h' | h'
      · exact h' ▸ hx
      · exact hrest u h'
    · subst ha
      by_cases hlen : x.length < a.length
      · have := hacc x (by simp only [chooseShorter]; rw [if_pos hlen])
        omega
      · exact hacc a (by simp only [chooseShorter]; rw [if_neg hlen])

theorem leftmostShortest_min {vs : List String} {v : String}
    (h : leftmostShortest vs = some v) : ∀ u ∈ vs, v.length ≤ u.length :=
  (foldl_chooseShorter_min vs none v h).1

theorem dedupeSkusAux_sublist (l : List String) : ∀ seen, List.Sublist (dedupeSkusAux seen l) l := by
  induction l with
  | nil => intro seen; simp [dedupeSkusAux]
  | cons s rest ih =>
    intro seen
    simp only [dedupeSkusAux]
    split
    · exact List.Sublist.cons₂ s (ih (s :: seen))
    · exact List.Sublist.cons s (ih seen)

theorem dedupeSkusAux_not_mem (l : List String) :
    ∀ seen x, x ∈ dedupeSkusAux seen l → x ∉ seen := by
  induction l with
  | nil => intro seen x hx; simp [dedupeSkusAux] at hx
  | cons s rest ih =>
    intro seen x hx
    simp only [dedupeSkusAux] at hx
    split at hx
    · rcases List.mem_cons.mp hx with h | h
      · rename_i hcond
        exact h ▸ hcond.2
      · intro hseen
        exact ih (s :: seen) x h (List.mem_cons_of_mem _ hseen)
    · exact ih seen x hx

theorem dedupeSkusAux_nodup (l : List String) : ∀ seen, (dedupeSkusAux seen l).Nodup := by
  induction l with
  | nil => intro seen; simp [dedupeSkusAux]
  | cons s rest ih =>
    intro seen
    simp only [dedupeSkusAux]
    split
    · exact List.nodup_cons.mpr
        ⟨fun hmem => dedupeSkusAux_not_mem rest (s :: seen) s hmem (List.mem_cons_self _ _),
         ih (s :: seen)⟩
    · exact ih seen

theorem agentLoopAux_budget (llm : Nat → String) (tool : ToolFn)
    (hIntent : ∀ k, isCallTool (parseAction (llm k)) = true)
    (hTool : ∀ name args, ∃ t refs, tool name args = .ok (t, refs)) :
    ∀ fuel calls refs,
      agentLoopAux llm tool fuel calls refs = (ChatOutcome.budgetExhausted, calls + fuel) := by
  intro fuel
  induction fuel with
  | zero => intro calls refs; simp [agentLoopAux]
  | succ n ih =>
    intro calls refs
    simp only [agentLoopAux]
    rw [if_pos (hIntent calls)]
    obtain ⟨t, refs', htool⟩ := hTool (jsonObjGet (parseAction (llm calls)) "tool_name")
      ((jsonObjGet (parseAction (llm calls)) "arguments").getD (Json.obj []))
    rw [htool]
    dsimp only
    rw [ih (calls + 1) (refs ++ refs')]
    have : calls + 1 + n = calls + (n + 1) := by omega
    rw [this]

theorem jsonObjGet_fallback_action (c : String) :
    jsonObjGet [("action", Json.str "final_response"), ("content", Json.str c)] "action" =
      some (Json.str "final_response") := rfl

theorem jsonObjGet_fallback_content (c : String) :
    jsonObjGet [("action", Json.str "final_response"), ("content", Json.str c)] "content" =
      some (Json.str c) := rfl

theorem isCallTool_fallback (c : String) :
    isCallTool [("action", Json.str "final_response"), ("content", Json.str c)] = false := rfl

theorem extractFloat_eq (raw : String) (h : raw ≠ "") :
    extractFloat raw =
      (match mixedStage (commaToSpace raw) with
       | some v => some v
       | none =>
         match fracStage (commaToSpace raw) with
         | some v => some v
         | none => searchNum (commaToSpace raw)) := by
  unfold extractFloat
  rw [if_neg h]

/-! ## Claim theorems -/

set_option maxHeartbeats 1600000 in
/-- C5: `extractNumber` tries, in priority order, mixed fraction, then
simple fraction, then plain decimal, with a zero denominator treated as no
match for that pattern and falling through to the next rule; and
`extractNumber("1 1/4") = 1.25`, `extractNumber("3/4") = 0.75`,
`extractNumber("12.5") = 12.5`, `extractNumber("n/a")` is absent. -/
theorem extract_number_priority :
    (∀ (raw : String) (w : Int) (n d : Nat), raw ≠ "" →
      searchMixed (commaToSpace raw) = some (w, n, d) → d ≠ 0 →
      extractFloat raw = some (mixedVal w n d)) ∧
    (∀ (raw : String) (n : Int) (d : Nat), raw ≠ "" →
      mixedStage (commaToSpace raw) = none →
      searchFrac (commaToSpace raw) = some (n, d) → d ≠ 0 →
      extractFloat raw = some ((n : ℚ) / (d : ℚ))) ∧
    (∀ raw : String, raw ≠ "" →
      mixedStage (commaToSpace raw) = none → fracStage (commaToSpace raw) = none →
      extractFloat raw = searchNum (commaToSpace raw)) ∧
    (∀ (l : List Char) (w : Int) (n : Nat),
      searchMixed l = some (w, n, 0) → mixedStage l = none) ∧
    (∀ (l : List Char) (n : Int),
      searchFrac l = some (n, 0) → fracStage l = none) ∧
    extractFloat "1 1/4" = some 1.25 ∧
    extractFloat "3/4" = some 0.75 ∧
    extractFloat "12.5" = some 12.5 ∧
    extractFloat "n/a" = none := by
  refine ⟨?_, ?_, ?_, ?_, ?_, ?_, ?_, ?_, ?_⟩
  · intro raw w n d hraw hsm hd
    rw [extractFloat_eq raw hraw]
    rw [show mixedStage (commaToSpace raw) = some (mixedVal w n d) by
      simp [mixedStage, hsm, hd]]
  · intro raw n d hraw hmix hsf hd
    rw [extractFloat_eq raw hraw, hmix]
    rw [show fracStage (commaToSpace raw) = some ((n : ℚ) / (d : ℚ)) by
      simp [fracStage, hsf, hd]]
  · intro raw hraw hmix hfrac
    rw [extractFloat_eq raw hraw, hmix, hfrac]
  · intro l w n hsm
    simp [mixedStage, hsm]
  · intro l n hsf
    simp [fracStage, hsf]
  all_goals
    simp +decide [extractFloat, commaToSpace, mixedStage, fracStage, searchMixed, searchFrac,
      searchNum, matchMixedAt, matchFracAt, matchNumAt, matchSignedInt, takeDigits, takeWs,
      digitsVal, isDigitChar, isSpaceChar, mixedVal]
  all_goals norm_num

/-- Witness for C5: the mixed-fraction rule fires on "1 1/4". -/
theorem extract_number_priority_witness :
    extractFloat "1 1/4" = some (mixedVal 1 1 4) :=
  extract_number_priority.1 "1 1/4" 1 1 4 (by decide) (by decide) (by decide)

/-- C6 counterexample: the claim says commas are stripped as thousands
separators so that `extractNumber("1,250") = 1250`; the code replaces
commas with spaces, so `extractNumber("1,250") = 1`. -/
theorem comma_thousands_counterexample :
    extractFloat "1,250" = some 1 ∧ extractFloat "1,250" ≠ some 1250 := by
  have h : extractFloat "1,250" = some 1 := by
    simp +decide [extractFloat, commaToSpace, mixedStage, fracStage, searchMixed, searchFrac,
      searchNum, matchMixedAt, matchFracAt, matchNumAt, matchSignedInt, takeDigits, takeWs,
      digitsVal, isDigitChar, isSpaceChar, mixedVal]
  refine ⟨h, ?_⟩
  rw [h]
  intro hc
  simp only [Option.some.injEq] at hc
  norm_num at hc

/-- C6 amended: `extractNumber` replaces each comma with a space before
matching, so commas act as token separators, not thousands separators: for
"1,250" it returns the leftmost number group, 1. -/
theorem comma_as_separator :
    (∀ raw : String, extractFloat raw = extractFloat ⟨commaToSpace raw⟩) ∧
    extractFloat "1,250" = some 1 := by
  constructor
  · intro raw
    by_cases h : raw = ""
    · subst h; rfl
    · have hne : (⟨commaToSpace raw⟩ : String) ≠ "" := by
        intro hc
        apply h
        have hdata : commaToSpace raw = [] := congrArg String.data hc
        unfold commaToSpace at hdata
        rcases hd : raw.data with _ | ⟨c, cs⟩
        · exact String.ext hd
        · rw [hd] at hdata; simp at hdata
      rw [extractFloat_eq raw h, extractFloat_eq _ hne]
      have hcc : commaToSpace ⟨commaToSpace raw⟩ = commaToSpace raw := by
        show (commaToSpace raw).map _ = _
        unfold commaToSpace
        rw [List.map_map]
        congr 1
        funext c
        by_cases hc : c = ',' <;> simp [hc]
      rw [hcc]
  · exact comma_thousands_counterexample.1

/-- C8: the context builder seeds candidates with the active sku, appends
lexical then semantic hits, deduplicates truthy skus preserving first-seen
order (the result is duplicate-free and a sublist of the candidate
sequence), truncates to `topK`; with active sku "A" and hits
["B", "A", "C"] the resolved order is ["A", "B", "C"]. -/
theorem context_builder_dedupe :
    (∀ (active : Option String) (query : String) (lex sem : List String) (k : Nat),
      (prepareContextSkus active query lex sem k).Nodup ∧
      (prepareContextSkus active query lex sem k).length ≤ k ∧
      List.Sublist (prepareContextSkus active query lex sem k)
        ((match active with
          | some s => if s ≠ "" then [s] else []
          | none => []) ++ (if pyStrip query ≠ "" then lex ++ sem else []))) ∧
    prepareContextSkus (some "A") "q" ["B", "A"] ["C"] 3 = ["A", "B", "C"] ∧
    (prepareContextDetails (fun s => some (mkBareDetail s [])) (some "A") "q" ["B", "A"] ["C"] 3).map
      (fun d => d.product.sku) = ["A", "B", "C"] := by
  refine ⟨fun active query lex sem k => ?_, by decide, by decide⟩
  unfold prepareContextSkus
  refine ⟨?_, ?_, ?_⟩
  · exact (List.take_sublist _ _).nodup (dedupeSkusAux_nodup _ [])
  · exact List.length_take_le _ _
  · exact (List.take_sublist _ _).trans (dedupeSkusAux_sublist _ [])

/-- C9: the affirmative keyword test runs before the negative one and both
are substring tests, so a fireplace-surround value containing "not
suitable" fires the positive branch ("suitable" is a substring), giving
ok = true with confidence 0.9; likewise a radiant-heat value containing
"not compatible" gives ok = true with confidence 0.9. -/
theorem affirmative_before_negative :
    ∀ detail : ProductDetail,
      (∀ v, dictGetD (build_spec_map detail) "fireplace surround use" "" = v → v ≠ "" →
        strContains (strLower v) "not suitable" = true →
        (check_fireplace_surround detail).ok = some true ∧
        (check_fireplace_surround detail).confidence = 0.9) ∧
      (∀ v, pyOr (dictGetD (build_spec_map detail) "radiant heat compatible" "")
          (dictGetD (build_spec_map detail) "radiant heat compatibility" "") = v → v ≠ "" →
        strContains (strLower v) "not compatible" = true →
        (check_radiant_heat detail).ok = some true ∧
        (check_radiant_heat detail).confidence = 0.9) := by
  intro detail
  constructor
  · intro v hv hne hcontains
    have hsuit : strContains (strLower v) "suitable" = true :=
      strContains_mono hcontains (by decide)
    simp only [check_fireplace_surround]
    rw [hv]
    rw [if_pos ⟨hne, Or.inr hsuit⟩]
    exact ⟨rfl, rfl⟩
  · intro v hv hne hcontains
    have hcomp : strContains (strLower v) "compatible" = true :=
      strContains_mono hcontains (by decide)
    simp only [check_radiant_heat]
    rw [hv]
    rw [if_pos ⟨hne, Or.inr hcomp⟩]
    exact ⟨rfl, rfl⟩

/-- Witness for C9 at concrete products with the negative phrasings. -/
theorem affirmative_before_negative_witness :
    (check_fireplace_surround dFireplaceNeg).ok = some true ∧
    (check_radiant_heat dRadiantNeg).ok = some true :=
  ⟨((affirmative_before_negative dFireplaceNeg).1 _ rfl (by decide) (by decide)).1,
   ((affirmative_before_negative dRadiantNeg).2 _ rfl (by decide) (by decide)).1⟩

/-- C3: in the pool-deck evaluator the placement-rejection branch is
tested first, then the water-resistance-rejection branch, then the DCOF
branch; when the earlier branches pass and a DCOF value parses,
DCOF ≥ 0.42 yields ok = true and DCOF < 0.42 yields ok = false. -/
theorem pool_deck_branch_order :
    ∀ detail : ProductDetail,
      (dictGetD (build_spec_map detail) "placement location" "" ≠ "" →
        strContains (strLower (dictGetD (build_spec_map detail) "placement location" ""))
          "outdoor" = false →
        (check_pool_deck detail).ok = some false) ∧
      ((dictGetD (build_spec_map detail) "placement location" "" = "" ∨
        strContains (strLower (dictGetD (build_spec_map detail) "placement location" ""))
          "outdoor" = true) →
        dictGetD (build_spec_map detail) "water resistance" "" ≠ "" →
        containsAny (dictGetD (build_spec_map detail) "water resistance" "")
          ["not water", "not resistant"] = true →
        (check_pool_deck detail).ok = some false) ∧
      ((dictGetD (build_spec_map detail) "placement location" "" = "" ∨
        strContains (strLower (dictGetD (build_spec_map detail) "placement location" ""))
          "outdoor" = true) →
        (dictGetD (build_spec_map detail) "water resistance" "" = "" ∨
         containsAny (dictGetD (build_spec_map detail) "water resistance" "")
           ["not water", "not resistant"] = false) →
        ∀ v : ℚ, extractFloat (pyOr (dictGetD (build_spec_map detail) "dcof value" "")
            (dictGetD (build_spec_map detail) "dcof" "")) = some v →
          (v ≥ 0.42 → (check_pool_deck detail).ok = some true) ∧
          (v < 0.42 → (check_pool_deck detail).ok = some false)) := by
  intro detail
  simp only [check_pool_deck]
  refine ⟨?_, ?_, ?_⟩
  · intro hp ho
    rw [if_pos ⟨hp, by simp [ho]⟩]
    rfl
  · intro hpo hw hca
    rw [if_neg (fun hc => hc.2 (by rcases hpo with he | ht; exact absurd he hc.1; simp [ht]))]
    rw [if_pos ⟨hw, hca⟩]
    rfl
  · intro hpo hwo v hv
    have hdne : pyOr (dictGetD (build_spec_map detail) "dcof value" "")
        (dictGetD (build_spec_map detail) "dcof" "") ≠ "" := by
      intro hc
      rw [hc] at hv
      exact Option.noConfusion ((rfl : extractFloat "" = none) ▸ hv)
    rw [if_neg (fun hc => hc.2 (by rcases hpo with he | ht; exact absurd he hc.1; simp [ht]))]
    rw [if_neg (fun hc => by rcases hwo with he | hf; exact hc.1 he; rw [hc.2] at hf; cases hf)]
    rw [if_pos hdne, hv]
    dsimp only
    refine ⟨fun hge => ?_, fun hlt => ?_⟩
    · rw [if_pos hge]
      rfl
    · rw [if_neg (not_le.mpr hlt)]
      rfl

/-- Witness for C3: the DCOF-acceptance branch on a concrete product with
outdoor placement, positive water resistance and DCOF 0.55. -/
theorem pool_deck_branch_order_witness :
    (check_pool_deck dPoolDcof).ok = some true := by
  have hv : extractFloat (pyOr (dictGetD (build_spec_map dPoolDcof) "dcof value" "")
      (dictGetD (build_spec_map dPoolDcof) "dcof" "")) = some 0.55 := by
    rw [show pyOr (dictGetD (build_spec_map dPoolDcof) "dcof value" "")
        (dictGetD (build_spec_map dPoolDcof) "dcof" "") = "0.55" by decide]
    simp +decide [extractFloat, commaToSpace, mixedStage, fracStage, searchMixed, searchFrac,
      searchNum, matchMixedAt, matchFracAt, matchNumAt, matchSignedInt, takeDigits, takeWs,
      digitsVal, isDigitChar, isSpaceChar, mixedVal]
    norm_num
  exact ((pool_deck_branch_order dPoolDcof).2.2 (Or.inr (by decide)) (Or.inr (by decide))
    0.55 hv).1 (by norm_num)

set_option maxHeartbeats 4000000 in
/-- C1 amended: for every registered evaluator and every product detail,
an unknown verdict (ok = none) carries a confidence between 0.0 and 0.6
inclusive (the bathroom-floor evaluator reaches 0.6 and the steam-shower
evaluator 0.5, so the spec range 0.0-0.45 is too tight). -/
theorem unknown_confidence_bounded (uc : UseCase) (d : ProductDetail)
    (h : (runChecker uc d).ok = none) :
    0 ≤ (runChecker uc d).confidence ∧ (runChecker uc d).confidence ≤ 0.6 := by
  revert h
  cases uc
  all_goals
    simp only [runChecker, check_bathroom_floor, check_shower_floor, check_shower_wall,
      check_fireplace_surround, check_radiant_heat, check_outdoor_patio, check_pool_deck,
      check_kitchen_backsplash, check_commercial_heavy_floor, check_laundry_room_floor,
      check_basement_floor, check_steam_shower_enclosure, check_outdoor_kitchen_counter,
      check_garage_workshop_floor, check_driveway_paver, check_stair_tread,
      check_commercial_kitchen_floor, check_pool_interior, check_exterior_wall_cladding,
      mk_response]
  all_goals repeat' split
  all_goals intro h
  all_goals simp_all
  all_goals norm_num

/-- Witness for C1 amended: the bathroom-floor evaluator on a product with
only a water-resistance spec returns unknown, and its confidence obeys the
0.0-0.6 bound. -/
theorem unknown_confidence_bounded_witness :
    0 ≤ (runChecker UseCase.bathroom_floor dWaterOnly).confidence ∧
    (runChecker UseCase.bathroom_floor dWaterOnly).confidence ≤ 0.6 :=
  unknown_confidence_bounded UseCase.bathroom_floor dWaterOnly (by decide)

/-- C1 counterexample: the bathroom-floor evaluator returns ok = unknown
with confidence 0.6, outside the claimed range 0.0-0.45. -/
theorem unknown_confidence_counterexample :
    (runChecker UseCase.bathroom_floor dWaterOnly).ok = none ∧
    (runChecker UseCase.bathroom_floor dWaterOnly).confidence = 0.6 ∧
    ¬ ((runChecker UseCase.bathroom_floor dWaterOnly).confidence ≤ 0.45) := by
  refine ⟨by decide, rfl, ?_⟩
  rw [show (runChecker UseCase.bathroom_floor dWaterOnly).confidence = 0.6 from rfl]
  norm_num

set_option maxHeartbeats 4000000 in
/-- C10: every use case has a registered evaluator; each evaluator is a
total pure function of the product detail, always returning a verdict
tagged with its own use case and the product sku, and two invocations on
the same detail agree definitionally. -/
theorem registry_total_and_pure :
    ∀ uc : UseCase,
      lookupChecker uc = some (runChecker uc) ∧
      ∀ d : ProductDetail,
        (runChecker uc d).use_case = uc ∧
        (runChecker uc d).sku = d.product.sku ∧
        runChecker uc d = runChecker uc d := by
  intro uc
  refine ⟨by cases uc <;> rfl, fun d => ?_⟩
  have key : (runChecker uc d).use_case = uc ∧ (runChecker uc d).sku = d.product.sku := by
    cases uc
    all_goals
      simp only [runChecker, check_bathroom_floor, check_shower_floor, check_shower_wall,
        check_fireplace_surround, check_radiant_heat, check_outdoor_patio, check_pool_deck,
        check_kitchen_backsplash, check_commercial_heavy_floor, check_laundry_room_floor,
        check_basement_floor, check_steam_shower_enclosure, check_outdoor_kitchen_counter,
        check_garage_workshop_floor, check_driveway_paver, check_stair_tread,
        check_commercial_kitchen_floor, check_pool_interior, check_exterior_wall_cladding,
        mk_response]
    all_goals repeat' split
    all_goals exact ⟨rfl, rfl⟩
  exact ⟨key.1, key.2, rfl⟩

/-- C2 amended: with the iteration cap N = 3, if the LLM emits a tool-call
intent on every turn and every tool call succeeds, the loop terminates
with the tool-call-budget failure after the 3rd iteration, invoking the
LLM exactly 3 times and never a 4th. -/
theorem tool_budget_exhaustion (llm : Nat → String) (tool : ToolFn)
    (retrieved : List ProductDetail)
    (hIntent : ∀ k, isCallTool (parseAction (llm k)) = true)
    (hTool : ∀ name args, ∃ t refs, tool name args = .ok (t, refs)) :
    agentLoop llm tool retrieved = (ChatOutcome.budgetExhausted, 3) ∧ MAX_TOOL_CALLS = 3 := by
  refine ⟨?_, rfl⟩
  unfold agentLoop
  rw [agentLoopAux_budget llm tool hIntent hTool MAX_TOOL_CALLS 0 retrieved]
  rfl

/-- Witness for C2 amended: a constant tool-calling LLM against a tool
that always succeeds exhausts the budget after exactly 3 LLM calls. -/
theorem tool_budget_exhaustion_witness :
    agentLoop (fun _ => callToolText) okTool [] = (ChatOutcome.budgetExhausted, 3) ∧
    MAX_TOOL_CALLS = 3 :=
  tool_budget_exhaustion (fun _ => callToolText) okTool []
    (fun _ => show isCallTool (parseAction callToolText) = true by decide)
    (fun _ _ => ⟨_, _, rfl⟩)

/-- C2 counterexample: the claim says the budget failure happens on the
4th iteration with no 5th LLM call; in the code the loop runs `range(3)`,
so an always-tool-calling LLM is invoked exactly 3 times, and there is no
4th iteration at all. -/
theorem tool_budget_fourth_iteration_counterexample :
    agentLoop (fun _ => callToolText) okTool [] = (ChatOutcome.budgetExhausted, 3) ∧
    (agentLoop (fun _ => callToolText) okTool []).2 ≠ 4 :=
  ⟨rfl, by decide⟩

theorem agentLoopAux_final (llm : Nat → String) (tool : ToolFn)
    (fuel calls : Nat) (refs : List ProductDetail)
    (hpa : parseAction (llm calls) =
      [("action", Json.str "final_response"), ("content", Json.str (pyStrip (llm calls)))]) :
    agentLoopAux llm tool (fuel + 1) calls refs =
      (ChatOutcome.final (pyStrip (llm calls)) (dedupeProducts refs), calls + 1) := by
  simp only [agentLoopAux]
  rw [hpa, isCallTool_fallback]
  rw [if_neg (by simp)]
  rw [jsonObjGet_fallback_content]
  dsimp only
  by_cases hs : pyStrip (llm calls) = ""
  · rw [if_neg (fun hne => hne hs)]
  · rw [if_pos hs]
    rw [pyStrip_idem]

/-- C7 amended: when the assistant content parses as neither a whole-text
JSON intent nor a brace-substring intent, parsing never raises (it is a
total function) and the final response content equals the raw assistant
text stripped of leading and trailing whitespace (the code calls
`.strip()`, so "verbatim" holds only up to that trimming). -/
theorem unparsable_output_final_stripped (llm : Nat → String) (tool : ToolFn)
    (retrieved : List ProductDetail)
    (hWhole : ∀ fields, jsonParse (pyStrip (llm 0)) = some (Json.obj fields) →
      recognizedAction fields = false)
    (hSub : ∀ sub fields, braceSub (pyStrip (llm 0)).data = some sub →
      jsonParse (⟨sub⟩ : String) = some (Json.obj fields) →
      jsonTruthy ((jsonObjGet fields "action").getD Json.null) = false) :
    agentLoop llm tool retrieved =
      (ChatOutcome.final (pyStrip (llm 0)) (dedupeProducts retrieved), 1) := by
  have hstrict : strictIntent (pyStrip (llm 0)) = none := by
    unfold strictIntent
    rcases hjp : jsonParse (pyStrip (llm 0)) with _ | j
    · rfl
    · cases j <;> (dsimp only; try rfl)
      rename_i fields
      rw [if_neg (by simp [hWhole fields hjp])]
  have hloose : looseIntent (pyStrip (llm 0)) = none := by
    unfold looseIntent
    rcases hbs : braceSub (pyStrip (llm 0)).data with _ | sub
    · rfl
    · dsimp only
      rcases hjp : jsonParse (⟨sub⟩ : String) with _ | j
      · rfl
      · cases j <;> (dsimp only; try rfl)
        rename_i fields
        rw [if_neg (by simp [hSub sub fields hbs hjp])]
  have hpa : parseAction (llm 0) =
      [("action", Json.str "final_response"), ("content", Json.str (pyStrip (llm 0)))] := by
    simp only [parseAction, hstrict, hloose]
  exact agentLoopAux_final llm tool 2 0 retrieved hpa

/-- Witness for C7 amended at a concrete prose message. -/
theorem unparsable_output_final_stripped_witness :
    agentLoop (fun _ => proseText) okTool [] =
      (ChatOutcome.final (pyStrip proseText) (dedupeProducts []), 1) :=
  unparsable_output_final_stripped (fun _ => proseText) okTool []
    (fun _ h => Option.noConfusion ((rfl : jsonParse (pyStrip proseText) = none) ▸ h))
    (fun _ _ hb _ => Option.noConfusion
      ((rfl : braceSub (pyStrip proseText).data = none) ▸ hb))

/-- C7 counterexample: for raw assistant text with surrounding whitespace
the final content is the stripped text, not the raw text verbatim. -/
theorem unparsable_verbatim_counterexample :
    agentLoop (fun _ => proseText) okTool [] =
      (ChatOutcome.final "The best tile for showers is porcelain." [], 1) ∧
    "The best tile for showers is porcelain." ≠ proseText :=
  ⟨rfl, by decide⟩

/-- C4: `normalize` skips records whose trimmed key is empty, every output
key is trimmed and lowercase, every output value is whitespace-collapsed
and trimmed, and the retained value for a key is the first-seen value of
minimal character length among all values sharing that normalised key
(ties keep the first-seen value, captured by `leftmostShortest`). -/
theorem build_spec_map_normalization :
    ∀ (detail : ProductDetail) (k : String),
      dictGet (build_spec_map detail) k = leftmostShortest (valuesFor k detail.specs) ∧
      (∀ v, dictGet (build_spec_map detail) k = some v →
        pyStrip k = k ∧ strLower k = k ∧ collapseWs v = v ∧
        (∀ r ∈ detail.specs, normKey r.spec_key = k →
          v.length ≤ (collapseWs r.spec_value).length)) := by
  intro detail k
  refine ⟨build_spec_map_get detail k, fun v hv => ?_⟩
  rw [build_spec_map_get] at hv
  have hvmem := leftmostShortest_mem hv
  have hmin := leftmostShortest_min hv
  have hk : k ≠ "" := by
    intro hke
    rw [hke] at hvmem
    simp [valuesFor] at hvmem
  rw [valuesFor, if_neg hk] at hvmem
  obtain ⟨r, hrmem, hrv⟩ := List.mem_map.mp hvmem
  have hrk : normKey r.spec_key = k := by
    have hb := (List.mem_filter.mp hrmem).2
    simpa using hb
  refine ⟨?_, ?_, ?_, ?_⟩
  · rw [← hrk]; exact normKey_trimmed _
  · rw [← hrk]; exact normKey_lowered _
  · rw [← hrv]; exact collapseWs_idem _
  · intro r' hr' hk'
    apply hmin
    rw [valuesFor, if_neg hk]
    exact List.mem_map.mpr ⟨r', List.mem_filter.mpr ⟨hr', by simp [hk']⟩, rfl⟩

/-- Witness for C4 on a product with a duplicate key in variant spellings:
the retained value for "color" is the shorter "Red". -/
theorem build_spec_map_normalization_witness :
    pyStrip "color" = "color" ∧ strLower "color" = "color" ∧ collapseWs "Red" = "Red" ∧
    (∀ r ∈ dDupSpecs.specs, normKey r.spec_key = "color" →
      ("Red" : String).length ≤ (collapseWs r.spec_value).length) :=
  (build_spec_map_normalization dDupSpecs "color").2 "Red" (by decide)

end FndAgent
